import Mathlib


/-!
# Verification of the address-enrichment core of the Boondock-Echo marketing repository

This file is a shallow embedding, in Lean 4, of the address-completeness
classifier, geocode result model, reverse-geocode cache, and row-enrichment
driver of the repository.  The embedded functions mirror, line by line:

* `Firefighter-Finder/firefighter_finder/address_utils.py`
  (`STATE_ZIP_RE`, `address_is_complete`, `build_address`, `reverse_geocode`),
* `fire-station-tools/fire_station_tools/geocode.py`
  (`GeocodeErrorCode`, `GeocodeResult`, `ReverseGeocodeCache`,
  `geocode_place`, `reverse_geocode_address`, `reverse_geocode_address_cached`),
* `Firefighter-Finder/address_cleanup.py`
  (`build_target_mask`, `build_search_query`, `process_dataframe`).

Modelling conventions:

* Python `float` coordinates are modelled as `ℚ` (the cache and the drivers
  only compare, store and print coordinates; no rounding arithmetic is done
  on them, so an exact numeric field is a faithful carrier).  The coercion
  `float(x)` applied to a value that is already a float is the identity and
  is modelled as such.
* Python strings are Lean `String`s; the handful of `str` methods used by
  the sources (`strip`, `rstrip(", ")`, `split`, `lower`, `startswith`,
  substring containment, `", ".join`) are re-implemented below on
  `List Char` with Python's semantics (Python whitespace set, ASCII case
  folding, first/last-separator splitting).
* The geocoding provider (a geopy `RateLimiter`-wrapped callable) is an
  injected collaborator.  Its observable behaviours at one call — a truthy
  location carrying a raw structured address, a falsy/empty response, or a
  raised exception of one of the geopy classes or any other class — are
  reified as an outcome datatype, and an embedded function that calls the
  provider returns, alongside its result, the number of provider
  invocations it performed, so that call-counting claims are statable.
* Exceptions are modelled by `Except`/`Option` results; `SystemExit` and
  other propagating exceptions of the driver are the `PyErr` error type.
-/
/-! ## Python character classes and string helpers -/
/-- Python whitespace characters (the set stripped by `str.strip()` and
matched by `\s` for the ASCII inputs handled here). -/
def isWsPy (c : Char) : Bool :=
  c = ' ' || c = '\t' || c = '\n' || c = '\r' || c = '\x0b' || c = '\x0c'

/-- `\w` word characters (ASCII): letters, digits, underscore. -/
def isWordPy (c : Char) : Bool :=
  c.isAlphanum || c = '_'

/-- `[A-Z]`. -/
def isUpperAZ (c : Char) : Bool :=
  'A' ≤ c && c ≤ 'Z'

/-- `\d` (ASCII digits). -/
def isDigit09 (c : Char) : Bool :=
  '0' ≤ c && c ≤ '9'

/-- `[A-Za-z]`. -/
def isLetterAZ (c : Char) : Bool :=
  ('A' ≤ c && c ≤ 'Z') || ('a' ≤ c && c ≤ 'z')

/-- Python `str.lower` on one character (ASCII case folding). -/
def pyLowerChar (c : Char) : Char :=
  if 'A' ≤ c ∧ c ≤ 'Z' then Char.ofNat (c.toNat + 32) else c

/-- Strip trailing Python whitespace. -/
def rstripWs (l : List Char) : List Char :=
  ((l.reverse).dropWhile isWsPy).reverse

/-- Python `str.strip()`. -/
def pyStrip (l : List Char) : List Char :=
  rstripWs (l.dropWhile isWsPy)

/-- Python `str.strip()` on `String`. -/
def pyStripStr (s : String) : String :=
  String.mk (pyStrip s.data)

/-- Python `str.rstrip(", ")`: strip any trailing commas and spaces. -/
def rstripCommaSpace (l : List Char) : List Char :=
  ((l.reverse).dropWhile (fun c => c = ',' || c = ' ')).reverse

/-- The part of `l` before its first comma (`address.split(",")[0]`). -/
def beforeFirstComma (l : List Char) : List Char :=
  l.takeWhile (fun c => c ≠ ',')

/-- The part of `l` after its last comma (`s.split(",")[-1]`). -/
def afterLastComma (l : List Char) : List Char :=
  ((l.reverse).takeWhile (fun c => c ≠ ',')).reverse

/-- Does `needle` occur at the head of `haystack`? (`str.startswith`). -/
def leadsWith : List Char → List Char → Bool
  | [], _ => true
  | _ :: _, [] => false
  | a :: as, b :: bs => a = b && leadsWith as bs

/-- Substring containment (`pattern in s` / `Series.str.contains` with a
metacharacter-free pattern). -/
def containsSub (needle : List Char) : List Char → Bool
  | [] => leadsWith needle []
  | c :: t => leadsWith needle (c :: t) || containsSub needle t

/-- Python `str.lower()` (ASCII). -/
def pyLower (l : List Char) : List Char :=
  l.map pyLowerChar

/-! ## The `STATE_ZIP_RE` matcher

`STATE_ZIP_RE = re.compile(r"\b([A-Z]{2})\s*,?\s+(\d{5}(?:-\d{4})?)\b")`
(`firefighter_finder/address_utils.py`, line 12).  `re.search` finds the
leftmost start position at which the pattern matches.  At one start
position the pattern matches iff: a word boundary precedes; two uppercase
letters follow; then a separator drawn from `\s*,?\s+` (with PCRE-style
backtracking this language is: a nonempty run of whitespace characters
containing at most one comma, the comma not in last position — the run
must end immediately before the first digit, since `\d` accepts neither
whitespace nor a comma); then five digits followed either by the end, or
by a non-word character (the optional `-\d{4}` extension only lengthens a
match that already exists: if the four extension digits are followed by a
word character, backtracking drops the group and the boundary after the
fifth digit is the non-word `-`). -/

/-- Separator characters that `\s*,?\s+` can consume. -/
def isSepChar (c : Char) : Bool :=
  isWsPy c || c = ','

/-- Is a maximal whitespace/comma run a valid `\s*,?\s+` separator?
Nonempty, at most one comma, comma not last. -/
def sepRunOk (m : List Char) : Bool :=
  !m.isEmpty && m.count ',' ≤ 1 && !(m.getLast? = some ',')

/-- Does `(\d{5}(?:-\d{4})?)\b` match at the head of `l`? -/
def zipOk : List Char → Bool
  | d1 :: d2 :: d3 :: d4 :: d5 :: rest =>
    isDigit09 d1 && isDigit09 d2 && isDigit09 d3 && isDigit09 d4 && isDigit09 d5 &&
      (match rest with
       | [] => true
       | c :: _ => !isWordPy c)
  | _ => false

/-- Does `STATE_ZIP_RE` match at this position? `prev` is the character
just before the position (`none` at the start of the string). -/
def stateZipMatchAt (prev : Option Char) : List Char → Bool
  | a :: b :: rest =>
    (match prev with
     | none => true
     | some p => !isWordPy p) &&
    isUpperAZ a && isUpperAZ b &&
    sepRunOk (rest.takeWhile isSepChar) &&
    zipOk (rest.dropWhile isSepChar)
  | _ => false

/-- Scan for the leftmost match start (`STATE_ZIP_RE.search(s).start()`). -/
def stateZipSearchAux (prev : Option Char) (i : Nat) : List Char → Option Nat
  | [] => none
  | c :: rest =>
    if stateZipMatchAt prev (c :: rest) then some i
    else stateZipSearchAux (some c) (i + 1) rest

/-- `STATE_ZIP_RE.search(s)`: `some i` is the start index of the leftmost
match, `none` means no match. -/
def stateZipSearch (l : List Char) : Option Nat :=
  stateZipSearchAux none 0 l

/-! ## `address_is_complete` (`firefighter_finder/address_utils.py`, 40-62) -/

/-- Core of `address_is_complete` on the character list of a string. -/
def addressIsCompleteChars (l0 : List Char) : Bool :=
  -- `if not isinstance(address, str) or not address.strip(): return False`
  -- `address = address.strip()`
  let l := pyStrip l0
  if l.isEmpty then false
  else
    match stateZipSearch l with
    | none => false
    | some i =>
      -- `street_part = address.split(",")[0].strip()`
      let street := pyStrip (beforeFirstComma l)
      -- `if not re.match(r"^\s*\d", street_part): return False`
      (match street with
       | d :: _ => isDigit09 d
       | [] => false) &&
      -- `if not re.search(r"[A-Za-z]", street_part): return False`
      street.any isLetterAZ &&
      -- `before_state = address[: state_zip_match.start()].rstrip(", ")`
      (let before_state := rstripCommaSpace (l.take i)
       !before_state.isEmpty &&
       -- `city_candidate = before_state.split(",")[-1].strip()`
       (pyStrip (afterLastComma before_state)).any isLetterAZ)

/-- `address_is_complete` on a string argument. -/
def addressIsComplete (s : String) : Bool :=
  addressIsCompleteChars s.data

/-- `address_is_complete` on an arbitrary Python value: `None` (and any
other non-string) is modelled by `none` and is always incomplete. -/
def addressIsCompleteOpt : Option String → Bool
  | none => false
  | some s => addressIsComplete s

/-! ## `build_address` (`firefighter_finder/address_utils.py`, 65-75) -/

/-- The structured address mapping exposed by a provider location's
`raw["address"]`, projected to the fields the formatters read.  `none`
models an absent key; `some ""` an empty string value. -/
structure AddrPayload where
  house_number : Option String
  road : Option String
  city : Option String
  town : Option String
  village : Option String
  hamlet : Option String
  state : Option String
  postcode : Option String
deriving DecidableEq, Repr

/-- The all-absent payload (`location.raw.get("address") or {}` when the
key is missing). -/
def AddrPayload.empty : AddrPayload :=
  ⟨none, none, none, none, none, none, none, none⟩

/-- Python truthiness on an optional string: `None` and `""` are falsy. -/
def optTruthy : Option String → Option String
  | none => none
  | some s => if s.isEmpty then none else some s

/-- Python `a or b` on optional strings. -/
def pyOrOpt (a b : Option String) : Option String :=
  match optTruthy a with
  | some s => some s
  | none => b

/-- `", ".join([p for p in parts if p])`. -/
def joinTruthy (parts : List (Option String)) : String :=
  String.intercalate ", " (parts.filterMap optTruthy)

/-- `build_address` of `firefighter_finder/address_utils.py`:
house-number and road joined by a space into one street token, locality
`city or town or village or hamlet`, then state and postcode, joined by
`", "`; may return the empty string. -/
def build_address (address : AddrPayload) : String :=
  let street :=
    pyStripStr (String.intercalate " "
      ([address.house_number, address.road].filterMap optTruthy))
  let locality :=
    pyOrOpt address.city (pyOrOpt address.town (pyOrOpt address.village address.hamlet))
  joinTruthy [if street.isEmpty then none else some street,
              locality, address.state, address.postcode]

-- sanity checks while developing (concrete evaluations of the classifier)

/-! ## Geocode result model (`fire_station_tools/geocode.py`, 19-38) -/

/-- `GeocodeErrorCode` (a `str` Enum in the source). -/
inductive GeocodeErrorCode
  | emptyQuery
  | missingLatLon
  | noResults
  | incompleteAddress
  | timeout
  | serviceUnavailable
  | serviceError
  | unexpectedError
deriving DecidableEq, Repr

/-- The `.value` string of each enum member. -/
def GeocodeErrorCode.value : GeocodeErrorCode → String
  | .emptyQuery => "empty-query"
  | .missingLatLon => "missing-lat-lon"
  | .noResults => "no-results"
  | .incompleteAddress => "incomplete-address"
  | .timeout => "timeout"
  | .serviceUnavailable => "service-unavailable"
  | .serviceError => "service-error"
  | .unexpectedError => "unexpected-error"

/-- `GeocodeErrorCode(s)`: enum lookup by value string; an unknown string
raises `ValueError`, modelled by `none`. -/
def codeOfString (s : String) : Option GeocodeErrorCode :=
  if s = "empty-query" then some .emptyQuery
  else if s = "missing-lat-lon" then some .missingLatLon
  else if s = "no-results" then some .noResults
  else if s = "incomplete-address" then some .incompleteAddress
  else if s = "timeout" then some .timeout
  else if s = "service-unavailable" then some .serviceUnavailable
  else if s = "service-error" then some .serviceError
  else if s = "unexpected-error" then some .unexpectedError
  else none

/-- `GeocodeResult` (frozen dataclass, generic in the value type). -/
structure GeocodeResult (α : Type) where
  value : Option α
  error_code : Option GeocodeErrorCode
  error_message : Option String
deriving DecidableEq, Repr

/-- The `ok` property: true iff `error_code is None`. -/
def GeocodeResult.ok (r : GeocodeResult α) : Bool :=
  r.error_code.isNone

/-- The documented invariant on a result: exactly one of `value` and
`error_code` is present. -/
def GeocodeResult.exclusive (r : GeocodeResult α) : Prop :=
  r.value.isSome ↔ r.error_code = none

instance (r : GeocodeResult α) : Decidable r.exclusive := by
  unfold GeocodeResult.exclusive; infer_instance

/-! ## Provider call boundary

geopy's exception hierarchy: `GeocoderTimedOut` and `GeocoderUnavailable`
are subclasses of `GeocoderServiceError`; the sources order their
`except` clauses so that the most specific class is matched first, which
the outcome constructors reproduce (`raiseServiceErr` stands for a
`GeocoderServiceError` that is neither of the two subclasses, and
`raiseOther` for an exception of any other class). -/

/-- Observable behaviours of one reverse-provider call
`geocode((lat, lon), exactly_one=True, addressdetails=True)`. -/
inductive ReverseOutcome
  | located (address : Option AddrPayload)
  | noLocation
  | raiseTimedOut (msg : String)
  | raiseUnavailable (msg : String)
  | raiseServiceErr (msg : String)
  | raiseOther (msg : String)
deriving DecidableEq, Repr

/-- Observable behaviours of one forward-provider call
`geocode(query, exactly_one=True, addressdetails=True)`: a located result
additionally exposes `location.latitude`/`location.longitude`. -/
inductive ForwardOutcome
  | located (latitude longitude : ℚ) (address : Option AddrPayload)
  | noLocation
  | raiseTimedOut (msg : String)
  | raiseUnavailable (msg : String)
  | raiseServiceErr (msg : String)
  | raiseOther (msg : String)
deriving DecidableEq, Repr

/-! ## `geocode_place` (`fire_station_tools/geocode.py`, 157-201) -/

def geocode_place (query : String) (geocode : String → ForwardOutcome) :
    GeocodeResult (ℚ × ℚ) :=
  if query.isEmpty then
    ⟨none, some .emptyQuery, some "Query cannot be empty."⟩
  else
    match geocode query with
    | .noLocation =>
      ⟨none, some .noResults, some "No results found."⟩
    | .located la lo _ =>
      ⟨some (la, lo), none, none⟩
    | .raiseTimedOut m =>
      ⟨none, some .timeout, some m⟩
    | .raiseUnavailable m =>
      ⟨none, some .serviceUnavailable, some m⟩
    | .raiseServiceErr m =>
      ⟨none, some .serviceError, some m⟩
    | .raiseOther m =>
      ⟨none, some .unexpectedError, some m⟩

/-! ## `reverse_geocode_address` (`fire_station_tools/geocode.py`, 204-269) -/

/-- The joined address parts of the reverse formatter in `geocode.py`:
`[house_number, road, city or town or village, state, postcode]`,
falsy entries dropped, joined with `", "`.  Note: house number and road
are separate tokens and `hamlet` is not consulted (unlike
`build_address`). -/
def reverseJoined (addr : AddrPayload) : String :=
  joinTruthy [addr.house_number, addr.road,
              pyOrOpt addr.city (pyOrOpt addr.town addr.village),
              addr.state, addr.postcode]

def reverse_geocode_address (lat lon : Option ℚ)
    (geocode : ℚ × ℚ → ReverseOutcome) : GeocodeResult String :=
  match lat, lon with
  | none, _ => ⟨none, some .missingLatLon, some "Missing lat/lon."⟩
  | some _, none => ⟨none, some .missingLatLon, some "Missing lat/lon."⟩
  | some la, some lo =>
    match geocode (la, lo) with
    | .noLocation =>
      ⟨none, some .noResults, some "No address found via reverse geocoding."⟩
    | .located addrOpt =>
      let addr := addrOpt.getD AddrPayload.empty
      let full_addr := reverseJoined addr
      if full_addr.isEmpty then
        ⟨none, some .incompleteAddress, some "Address found but incomplete."⟩
      else
        ⟨some full_addr, none, none⟩
    | .raiseTimedOut m => ⟨none, some .timeout, some m⟩
    | .raiseUnavailable m => ⟨none, some .serviceUnavailable, some m⟩
    | .raiseServiceErr m => ⟨none, some .serviceError, some m⟩
    | .raiseOther m => ⟨none, some .unexpectedError, some m⟩

/-! ## Coordinate key codec

`ReverseGeocodeCache.save` writes each key as the string `f"{lat},{lon}"`
and `load` splits on the first comma and parses each side back with
`float`.  On the `ℚ` carrier this print/parse pair is modelled by an
exact decimal-free rendering `num/den` of each rational together with its
parser; like Python's `repr`/`float` pair on floats, printing is
injective, the printed form contains no comma, and parsing inverts
printing. -/

/-- Little-endian base-10 digits (with explicit fuel, so that the kernel
can evaluate it). -/
def natToRevDigits : Nat → Nat → List Nat
  | 0, _ => []
  | fuel + 1, n => if n = 0 then [] else n % 10 :: natToRevDigits fuel (n / 10)

/-- The digit character of `d < 10`. -/
def digitCh (d : Nat) : Char :=
  Char.ofNat (48 + d)

/-- The numeric value of a digit character. -/
def charDigit (c : Char) : Nat :=
  c.toNat - 48

/-- Big-endian decimal rendering of a natural number. -/
def natChars (n : Nat) : List Char :=
  if n = 0 then ['0'] else ((natToRevDigits n n).map digitCh).reverse

/-- Parse a nonempty all-digit string back to a natural number. -/
def parseNatChars (l : List Char) : Option Nat :=
  if l.isEmpty then none
  else if l.all isDigit09 then some (l.foldl (fun acc c => acc * 10 + charDigit c) 0)
  else none

/-- Rendering of an integer (possible leading minus sign). -/
def intChars (i : Int) : List Char :=
  if i < 0 then '-' :: natChars i.natAbs else natChars i.toNat

/-- Parse an optionally-signed decimal string back to an integer. -/
def parseIntChars (l : List Char) : Option Int :=
  if l.head? = some '-' then (parseNatChars l.tail).map (fun n => -(Int.ofNat n))
  else (parseNatChars l).map (fun n => Int.ofNat n)

/-- Split at the first occurrence of `sep` (`str.split(sep, 1)` when a
separator is present; `none` when it is absent). -/
def splitFirstChar (sep : Char) : List Char → Option (List Char × List Char)
  | [] => none
  | c :: rest =>
    if c = sep then some ([], rest)
    else (splitFirstChar sep rest).map (fun p => (c :: p.1, p.2))

/-- Rendering of one coordinate component. -/
def ratChars (q : ℚ) : List Char :=
  intChars q.num ++ '/' :: natChars q.den

/-- Parse one coordinate component (the model of `float(s)`; `none` models
a raised `ValueError`). -/
def parseRatChars (l : List Char) : Option ℚ :=
  (splitFirstChar '/' l).bind (fun p =>
    (parseIntChars p.1).bind (fun n =>
      (parseNatChars p.2).bind (fun d =>
        if d = 0 then none else some ((n : ℚ) / (d : ℚ)))))

/-- `f"{lat},{lon}"`, the cache key string. -/
def fmtKey (k : ℚ × ℚ) : String :=
  String.mk (ratChars k.1 ++ ',' :: ratChars k.2)

/-- `key.split(",", 1)` followed by `float` on both sides. -/
def parseKey (s : String) : Option (ℚ × ℚ) :=
  (splitFirstChar ',' s.data).bind (fun p =>
    (parseRatChars p.1).bind (fun la =>
      (parseRatChars p.2).map (fun lo => (la, lo))))

/-! ## Association-list model of Python `dict`

A Python `dict` is modelled by an association list with unique keys:
lookup finds the first (hence only) binding, assignment replaces an
existing binding in place or appends a new one at the end (insertion
order, as in CPython). -/

def assocGet [DecidableEq κ] (k : κ) : List (κ × β) → Option β
  | [] => none
  | (k', v) :: t => if k' = k then some v else assocGet k t

def assocSet [DecidableEq κ] (k : κ) (v : β) : List (κ × β) → List (κ × β)
  | [] => [(k, v)]
  | (k', v') :: t => if k' = k then (k, v) :: t else (k', v') :: assocSet k v t

/-! ## On-disk JSON model

The cache file is a JSON object.  The sources only ever write `null`,
strings, and one level of objects into it, so those constructors suffice
to model every file the program itself produces; an arbitrary
foreign file may of course hold other JSON values — for the claims
settled here only the shapes below are needed (a non-object payload is
skipped by `load` whichever non-object value it is, and `Json.str` serves
as such a value).  `json.dumps(..., indent=2, sort_keys=True)` is a
deterministic injective rendering of such a value once object fields are
in sorted order, so byte-identity of two files written by `save` is
equivalent to equality of the `Json` values below. -/

inductive Json
  | null
  | str (s : String)
  | obj (fields : List (String × Json))

/-- `payload.get(k)` on a parsed JSON object (`none` = key absent). -/
def Json.get (fields : List (String × Json)) (k : String) : Option Json :=
  assocGet k fields

/-! ## `ReverseGeocodeCache` (`fire_station_tools/geocode.py`, 41-102) -/

/-- The cache dataclass.  `hasPath` models `path is not None` (when set,
every `set` is immediately followed by a `save` of the serialized form
below — write-through persistence). -/
structure ReverseGeocodeCache where
  data : List ((ℚ × ℚ) × GeocodeResult String)
  hasPath : Bool
deriving DecidableEq, Repr

def ReverseGeocodeCache.get (c : ReverseGeocodeCache) (key : ℚ × ℚ) :
    Option (GeocodeResult String) :=
  assocGet key c.data

def ReverseGeocodeCache.set (c : ReverseGeocodeCache) (key : ℚ × ℚ)
    (value : GeocodeResult String) : ReverseGeocodeCache :=
  ⟨assocSet key value c.data, c.hasPath⟩

/-- The three fields of one serialized cache entry payload, in the sorted
order that `json.dumps(..., sort_keys=True)` emits. -/
def payloadFields (r : GeocodeResult String) : List (String × Json) :=
  [("error_code", match r.error_code with
     | some c => .str c.value
     | none => .null),
   ("error_message", match r.error_message with
     | some m => .str m
     | none => .null),
   ("value", match r.value with
     | some v => .str v
     | none => .null)]

/-- One serialized cache entry payload. -/
def resultToJson (r : GeocodeResult String) : Json :=
  .obj (payloadFields r)

/-- Comparison of serialized entries by their key string (the order
`sort_keys=True` uses). -/
def entryLE (a b : String × Json) : Prop :=
  a.1 ≤ b.1

instance : DecidableRel entryLE := fun a b => by
  unfold entryLE; infer_instance

instance : IsTotal (String × Json) entryLE :=
  ⟨fun a b => le_total a.1 b.1⟩

instance : IsTrans (String × Json) entryLE :=
  ⟨fun _ _ _ hab hbc => le_trans hab hbc⟩

/-- The serialized, key-sorted entry list of a cache. -/
def saveEntries (data : List ((ℚ × ℚ) × GeocodeResult String)) :
    List (String × Json) :=
  List.insertionSort entryLE
    (data.map (fun e => (fmtKey e.1, resultToJson e.2)))

/-- `ReverseGeocodeCache.save`: the JSON value whose sorted-key dump is
written (via a temp file and atomic replace) to the backing path. -/
def ReverseGeocodeCache.save (c : ReverseGeocodeCache) : Json :=
  .obj (saveEntries c.data)

/-- Decode the `error_code` field of a stored payload.  Outer `none`
models the uncaught `ValueError`/`TypeError` that
`GeocodeErrorCode(error_code)` raises on an unknown string or an
unhashable value; `some none` is a falsy stored code (`null`, absent,
`""`, `{}`). -/
def decodeErrorCodeField : Option Json → Option (Option GeocodeErrorCode)
  | none => some none
  | some .null => some none
  | some (.str s) => if s = "" then some none else (codeOfString s).map some
  | some (.obj []) => some none
  | some (.obj (_ :: _)) => none

/-- Decode the `value` field of a stored payload.  The sources store the
field verbatim; every payload written by `save` holds a string or
`null` here, which this decoder reproduces exactly. -/
def decodeValueField : Option Json → Option String
  | some (.str s) => some s
  | _ => none

/-- Decode the `error_message` field (same remark as `decodeValueField`). -/
def decodeMessageField : Option Json → Option String
  | some (.str s) => some s
  | _ => none

/-- The fold over `raw.items()` in `ReverseGeocodeCache.load`: malformed
keys and non-object payloads are skipped, recognised entries are stored
into the dict; an invalid `error_code` string propagates (outer `none`). -/
def loadFold (acc : List ((ℚ × ℚ) × GeocodeResult String)) :
    List (String × Json) → Option (List ((ℚ × ℚ) × GeocodeResult String))
  | [] => some acc
  | (k, payload) :: rest =>
    match parseKey k with
    | none => loadFold acc rest
    | some key =>
      match payload with
      | .obj pf =>
        match decodeErrorCodeField (Json.get pf "error_code") with
        | none => none
        | some ec =>
          loadFold
            (assocSet key
              ⟨decodeValueField (Json.get pf "value"), ec,
               decodeMessageField (Json.get pf "error_message")⟩ acc)
            rest
      | _ => loadFold acc rest

/-- `ReverseGeocodeCache.load`: parse the file contents.  A top-level
non-object yields an empty cache bound to the path (logged, non-fatal);
`none` models an exception propagating out of `load`. -/
def ReverseGeocodeCache.load (j : Json) : Option ReverseGeocodeCache :=
  match j with
  | .obj fields => (loadFold [] fields).map (fun d => ⟨d, true⟩)
  | _ => some ⟨[], true⟩

/-! ## `reverse_geocode_address_cached` (`fire_station_tools/geocode.py`, 272-292)

The third component of the result counts underlying provider invocations
performed by the call (the source's `geocode` callable is invoked exactly
once inside `reverse_geocode_address`). -/

def reverse_geocode_address_cached (lat lon : Option ℚ)
    (geocode : ℚ × ℚ → ReverseOutcome) (cache : ReverseGeocodeCache) :
    GeocodeResult String × ReverseGeocodeCache × Nat :=
  match lat, lon with
  | none, _ => (⟨none, some .missingLatLon, some "Missing lat/lon."⟩, cache, 0)
  | some _, none => (⟨none, some .missingLatLon, some "Missing lat/lon."⟩, cache, 0)
  | some la, some lo =>
    -- `key = (float(lat), float(lon))` — identity on the `ℚ` carrier
    let key := (la, lo)
    match cache.get key with
    | some cached => (cached, cache, 0)
    | none =>
      let result := reverse_geocode_address (some la) (some lo) geocode
      (result, cache.set key result, 1)

/-- The encoded form of one in-memory cache entry. -/
def encodeEntry (e : (ℚ × ℚ) × GeocodeResult String) : String × Json :=
  (fmtKey e.1, resultToJson e.2)

/-- A (total) decoder for serialized entries; on entries produced by
`encodeEntry` it recovers the entry exactly. -/
def decodeEntry (e : String × Json) : (ℚ × ℚ) × GeocodeResult String :=
  ((parseKey e.1).getD (0, 0),
   match e.2 with
   | .obj pf =>
     ⟨decodeValueField (Json.get pf "value"),
      (decodeErrorCodeField (Json.get pf "error_code")).getD none,
      decodeMessageField (Json.get pf "error_message")⟩
   | _ => ⟨none, none, none⟩)

/-! ## `reverse_geocode` (`firefighter_finder/address_utils.py`, 78-98)

The per-run in-memory cache of the cleanup driver maps float pairs to
plain strings; on miss the provider is consulted once and the resulting
string (a formatted address or one of four error-message strings) is
stored.  The second component of the result is the updated cache; the
third counts provider invocations. -/

def reverse_geocode (lat lon : ℚ) (geocode : ℚ × ℚ → ReverseOutcome)
    (cache : List ((ℚ × ℚ) × String)) : String × List ((ℚ × ℚ) × String) × Nat :=
  -- `key = (float(lat), float(lon))` — identity on the `ℚ` carrier
  let key := (lat, lon)
  match assocGet key cache with
  | some v => (v, cache, 0)
  | none =>
    let stored : String :=
      match geocode (lat, lon) with
      | .noLocation => "No address found via reverse geocoding"
      | .located addrOpt =>
        let formatted := build_address (addrOpt.getD AddrPayload.empty)
        if formatted.isEmpty then "Address found but incomplete" else formatted
      | .raiseTimedOut _ => "Lookup failed: GeocoderTimedOut"
      | .raiseUnavailable _ => "Lookup failed: GeocoderUnavailable"
      | .raiseServiceErr _ => "Lookup failed: GeocoderServiceError"
      | .raiseOther _ => "Error during lookup"
    (stored, assocSet key stored cache, 1)

/-! ## Dataframe model

A cell of the tabular dataset is `NaN`/`None`, a string, a float, or a
geometry point; a row is a string-keyed mapping of cells, a dataframe a
column-name list plus a row list.  `row.get(col)` on an absent column is
Python `None`, modelled by `none`. -/

inductive Cell
  | na
  | s (v : String)
  | num (q : ℚ)
  | pt (x y : ℚ)
deriving DecidableEq, Repr

/-- `str(cell)` / `.astype(str)`: `str(float("nan")) = "nan"` (a missing
value rendered by `astype(str)`); floats are rendered with the same
injective numeral form used for cache keys; a geometry renders as its
WKT text (only its being a non-address string matters here). -/
def cellStr : Cell → String
  | .na => "nan"
  | .s v => v
  | .num q => String.mk (ratChars q)
  | .pt _ _ => "POINT"

/-- Python truthiness of a cell (`NaN` is a nonzero float, hence truthy). -/
def cellTruthy : Cell → Bool
  | .na => true
  | .s v => !v.isEmpty
  | .num q => decide (q ≠ 0)
  | .pt _ _ => true

/-- `pd.notna` on an optional cell (`none` = Python `None`). -/
def cellNotNa : Option Cell → Bool
  | none => false
  | some .na => false
  | some _ => true

/-- `float(cell)`: defined for numeric cells; on the cells on which the
Python coercion raises (geometry: `TypeError`; the non-numeric strings a
string cell stands for here: `ValueError`) it is `none`. -/
def cellFloat : Option Cell → Option ℚ
  | some (.num q) => some q
  | _ => none

abbrev Row := List (String × Cell)

def rowGet (row : Row) (k : String) : Option Cell :=
  assocGet k row

def rowSet (row : Row) (k : String) (v : Cell) : Row :=
  assocSet k v row

/-- `str(row.get(col) or "")`: an absent column or falsy cell gives `""`,
a truthy cell its string rendering. -/
def pyStrOr (oc : Option Cell) : String :=
  match oc with
  | none => ""
  | some c => if cellTruthy c then cellStr c else ""

structure Df where
  cols : List String
  rows : List Row
deriving DecidableEq, Repr

/-- Python exceptions that escape a driver call. -/
inductive PyErr
  | systemExit (msg : String)
  | otherErr (msg : String)
deriving DecidableEq, Repr

/-! ## `ensure_lat_lon` (`firefighter_finder/address_utils.py`, 101-113)

GeoPandas is assumed importable (the `gpd is None` guard is
environment-dependent, not data-dependent).  `df.geometry.y`/`.x` on a
column that is not all geometry raises a non-`SystemExit` error, modelled
as `PyErr.otherErr`. -/

def ensure_lat_lon (df : Df) (lat_column lon_column : String) : Except PyErr Df :=
  if lat_column ∈ df.cols ∧ lon_column ∈ df.cols then .ok df
  else if "geometry" ∉ df.cols then
    .error (.systemExit "Missing lat/lon columns and no geometry column found.")
  else if df.rows.all (fun r => match rowGet r "geometry" with
      | some (.pt _ _) => true
      | _ => false) then
    .ok ⟨(if lat_column ∈ df.cols then df.cols else df.cols ++ [lat_column]) ++
           (if lon_column ∈ df.cols then [] else [lon_column]),
         df.rows.map (fun r =>
           match rowGet r "geometry" with
           | some (.pt x y) => rowSet (rowSet r lat_column (.num y)) lon_column (.num x)
           | _ => r)⟩
  else .error (.otherErr "geometry column is not all points")

/-! ## `build_target_mask` (`address_cleanup.py`, 98-115) -/

/-- The stringified address of a row (`df[address_column].astype(str)`). -/
def rowAddrStr (row : Row) (address_column : String) : String :=
  cellStr ((rowGet row address_column).getD .na)

def rowMissingMask (row : Row) (address_column missing_pattern : String) : Bool :=
  containsSub missing_pattern.data (rowAddrStr row address_column).data

def rowIncompleteMask (row : Row) (address_column : String) : Bool :=
  !addressIsComplete (rowAddrStr row address_column)

def rowTargeted (row : Row) (address_column missing_pattern : String)
    (only_missing only_incomplete : Bool) : Bool :=
  if only_missing then rowMissingMask row address_column missing_pattern
  else if only_incomplete then rowIncompleteMask row address_column
  else rowMissingMask row address_column missing_pattern ||
    rowIncompleteMask row address_column

/-! ## `build_search_query` (`address_cleanup.py`, 118-136) -/

/-- The field list scanned for extra query tokens, in source order. -/
def searchQueryFields : List String :=
  ["city", "town", "state", "postcode", "zip", "zip_code", "county"]

def build_search_query (row : Row) (existing : String) : Option String :=
  let parts0 : List String :=
    (let name := pyStripStr (pyStrOr (rowGet row "name"))
     if name.isEmpty then [] else [name])
  let parts1 : List String :=
    if !existing.isEmpty && !leadsWith "no address".data (pyLower existing.data) then
      parts0 ++ [existing]
    else parts0
  let parts : List String :=
    searchQueryFields.foldl (fun acc field =>
      match rowGet row field with
      | some cell =>
        if cellNotNa (some cell) then
          let text := pyStripStr (cellStr cell)
          if !text.isEmpty && text ∉ acc then acc ++ [text] else acc
        else acc
      | none => acc) parts1
  if parts.isEmpty then none else some (String.intercalate ", " parts)

/-- Modelled from the spec: `address_cleanup.py` imports
`forward_geocode_address` from `fire_station_tools.address_utils`, a
module that is not among the sources (only this caller and a test
exercising it are).  Per the spec's description of the forward attempt:
the attempt is skipped entirely (no provider call) when no query could be
built or the query is empty; a located result's structured address fields
are formatted into a single suggestion string; a falsy result, an
unformattable payload, or any provider failure yields no value.  The
second component counts forward-provider invocations. -/
def forward_geocode_address (query : Option String)
    (forward : String → ForwardOutcome) : Option String × Nat :=
  match query with
  | none => (none, 0)
  | some q =>
    if q.isEmpty then (none, 0)
    else
      match forward q with
      | .located _ _ addrOpt =>
        let formatted := build_address (addrOpt.getD AddrPayload.empty)
        (if formatted.isEmpty then none else some formatted, 1)
      | _ => (none, 1)

/-! ## The per-row enrichment body (`address_cleanup.py`, 178-229) -/

/-- The error-message openings tested by
`suggestion.lower().startswith((...))` at lines 191-198. -/
def failedSuggestionMarkers : List String :=
  ["no address found", "address found but incomplete",
   "lookup failed", "error during lookup"]

/-- `not suggestion or suggestion.lower().startswith((...))`. -/
def suggestionFailed : Option String → Bool
  | none => true
  | some s =>
    s.isEmpty ||
      failedSuggestionMarkers.any (fun m => leadsWith m.data (pyLower s.data))

/-- Truthiness of an optional string (`if suggestion:`). -/
def suggTruthy : Option String → Bool
  | none => false
  | some s => !s.isEmpty

/-- The forward-search fallback block (lines 190-209).  Returns the
possibly replaced suggestion, the recorded provenance, and the number of
forward-provider invocations. -/
def rowForward (row : Row) (existing : String) (sugg : Option String)
    (enable_forward_search : Bool) (fgOpt : Option (String → ForwardOutcome)) :
    Option String × Option String × Nat :=
  if enable_forward_search then
    match fgOpt with
    | some fg =>
      if suggestionFailed sugg then
        let query := build_search_query row existing
        let fwd := forward_geocode_address query fg
        if suggTruthy fwd.1 then (fwd.1, some "forward search", fwd.2)
        else if suggTruthy sugg then (sugg, some "reverse geocode", fwd.2)
        else (sugg, none, fwd.2)
      else if suggTruthy sugg then (sugg, some "reverse geocode", 0)
      else (sugg, none, 0)
    | none =>
      if suggTruthy sugg then (sugg, some "reverse geocode", 0)
      else (sugg, none, 0)
  else
    if suggTruthy sugg then (sugg, some "reverse geocode", 0)
    else (sugg, none, 0)

/-- The interactive collaborator `prompt_for_address(existing, suggestion,
require_complete, suggestion_source)` (an external review loop; its
choice function is injected). -/
abbrev PromptOracle := String → Option String → Bool → Option String → String

/-- The reverse-lookup part of the loop body (lines 180-188): `none` when
no usable coordinate, the `reverse_geocode` string on success, the
`"Lookup failed: <type>"` string when the `float` coercion raised and was
caught by the surrounding `except Exception`. -/
def rowReverse (latC lonC : Option Cell) (ready : Bool)
    (geocode : ℚ × ℚ → ReverseOutcome) (cache : List ((ℚ × ℚ) × String)) :
    Option String × List ((ℚ × ℚ) × String) × Nat :=
  if ready && cellNotNa latC && cellNotNa lonC then
    match cellFloat latC, cellFloat lonC with
    | some la, some lo =>
      let r := reverse_geocode la lo geocode cache
      (some r.1, r.2.1, r.2.2)
    | some _, none =>
      (some (match lonC with
        | some (.pt _ _) => "Lookup failed: TypeError"
        | _ => "Lookup failed: ValueError"), cache, 0)
    | none, _ =>
      (some (match latC with
        | some (.pt _ _) => "Lookup failed: TypeError"
        | _ => "Lookup failed: ValueError"), cache, 0)
  else (none, cache, 0)

/-- Resolution (lines 211-227): the prompt oracle in interactive mode;
otherwise the sentinel when no coordinate was usable, else
`suggestion or existing`. -/
def rowResolve (interactive : Bool) (prompt : PromptOracle)
    (require_complete : Bool) (existing : String) (sugg src : Option String)
    (ready : Bool) (latC lonC : Option Cell) : String :=
  if interactive then prompt existing sugg require_complete src
  else if !ready || !cellNotNa latC || !cellNotNa lonC then "Missing lat/lon"
  else match optTruthy sugg with
    | some s => s
    | none => existing

/-- Driver policy flags (keyword arguments of `process_dataframe`). -/
structure EnrichFlags where
  interactive : Bool
  only_missing : Bool
  only_incomplete : Bool
  require_complete : Bool
  enable_forward_search : Bool
deriving DecidableEq, Repr

/-- One iteration of the enrichment loop (lines 178-229) for a targeted
row: the resolved address string, the suggestion and provenance that fed
it, the updated reverse cache, and the numbers of reverse- and
forward-provider invocations. -/
def enrichRow (row : Row) (cache : List ((ℚ × ℚ) × String))
    (geocode : ℚ × ℚ → ReverseOutcome) (fgOpt : Option (String → ForwardOutcome))
    (flags : EnrichFlags) (prompt : PromptOracle)
    (address_column lat_column lon_column : String) (ready : Bool) :
    String × Option String × Option String × List ((ℚ × ℚ) × String) × Nat × Nat :=
  let existing := pyStripStr (pyStrOr (rowGet row address_column))
  let latC := if ready then rowGet row lat_column else none
  let lonC := if ready then rowGet row lon_column else none
  let rev := rowReverse latC lonC ready geocode cache
  let fwd := rowForward row existing rev.1 flags.enable_forward_search fgOpt
  let corrected := rowResolve flags.interactive prompt flags.require_complete
    existing fwd.1 fwd.2.1 ready latC lonC
  (corrected, fwd.1, fwd.2.1, rev.2.1, rev.2.2, fwd.2.2)

/-! ## `process_dataframe` (`address_cleanup.py`, 139-240) -/

/-- The write-back loop over `(row, targeted?)` pairs, threading the
reverse cache; returns the updated rows and the final cache. -/
def enrichLoop (geocode : ℚ × ℚ → ReverseOutcome)
    (fgOpt : Option (String → ForwardOutcome)) (flags : EnrichFlags)
    (prompt : PromptOracle) (address_column lat_column lon_column : String)
    (ready : Bool) :
    List (Row × Bool) → List ((ℚ × ℚ) × String) →
      List Row × List ((ℚ × ℚ) × String)
  | [], cache => ([], cache)
  | (row, tgt) :: rest, cache =>
    if tgt then
      let e := enrichRow row cache geocode fgOpt flags prompt
        address_column lat_column lon_column ready
      let next := enrichLoop geocode fgOpt flags prompt
        address_column lat_column lon_column ready rest e.2.2.2.1
      (rowSet row address_column (.s e.1) :: next.1, next.2)
    else
      let next := enrichLoop geocode fgOpt flags prompt
        address_column lat_column lon_column ready rest cache
      (row :: next.1, next.2)

/-- `process_dataframe`: the driver.  Returns the updated dataframe, the
count of targeted rows, the count of targeted rows whose final address
classifies as complete, and the final reverse cache. -/
def process_dataframe (df : Df) (geocode : ℚ × ℚ → ReverseOutcome)
    (cache : List ((ℚ × ℚ) × String))
    (fgOpt : Option (String → ForwardOutcome))
    (address_column lat_column lon_column missing_pattern : String)
    (flags : EnrichFlags) (prompt : PromptOracle) :
    Except PyErr (Df × Nat × Nat × List ((ℚ × ℚ) × String)) :=
  if address_column ∉ df.cols then
    .error (.systemExit ("Missing '" ++ address_column ++ "' column in input data."))
  else
    let targets := df.rows.map (fun row =>
      rowTargeted row address_column missing_pattern
        flags.only_missing flags.only_incomplete)
    let target_count := targets.count true
    if target_count = 0 then .ok (df, 0, 0, cache)
    else
      let step : Except PyErr (Df × Bool) :=
        if lat_column ∈ df.cols ∧ lon_column ∈ df.cols then .ok (df, true)
        else
          match ensure_lat_lon df lat_column lon_column with
          | .ok df' => .ok (df', true)
          | .error (.systemExit m) =>
            if flags.interactive then .ok (df, false)
            else .error (.systemExit m)
          | .error (.otherErr m) => .error (.otherErr m)
      match step with
      | .error e => .error e
      | .ok (df', ready) =>
        let lp := enrichLoop geocode fgOpt flags prompt
          address_column lat_column lon_column ready
          (df'.rows.zip targets) cache
        let corrected_count :=
          ((lp.1.zip targets).filter (fun p => p.2)).countP
            (fun p => addressIsComplete (rowAddrStr p.1 address_column))
        .ok (⟨df'.cols, lp.1⟩, target_count, corrected_count, lp.2)

/-- The stub provider payload of the spec's end-to-end scenario:
`{house_number: "123", road: "Main St", city: "Springfield", state: "CA",
postcode: "90210"}`. -/
def stubPayload : AddrPayload :=
  ⟨some "123", some "Main St", some "Springfield", none, none, none,
   some "CA", some "90210"⟩

/-! ## Theorems -/

/-! ### Codec round-trip lemmas -/

theorem natToRevDigits_lt (fuel n : Nat) : ∀ d ∈ natToRevDigits fuel n, d < 10 := by
  induction fuel generalizing n with
  | zero => intro d hd; simp [natToRevDigits] at hd
  | succ fuel ih =>
    intro d hd
    by_cases h : n = 0
    · simp [natToRevDigits, h] at hd
    · simp only [natToRevDigits, if_neg h, List.mem_cons] at hd
      rcases hd with rfl | hd
      · omega
      · exact ih _ d hd

theorem valRev_natToRevDigits (fuel n : Nat) (h : n ≤ fuel) :
    (natToRevDigits fuel n).foldr (fun d acc => acc * 10 + d) 0 = n := by
  induction fuel generalizing n with
  | zero => interval_cases n; simp [natToRevDigits]
  | succ fuel ih =>
    by_cases h0 : n = 0
    · simp [natToRevDigits, h0]
    · have hdiv : n / 10 ≤ fuel := by
        have := Nat.div_lt_self (Nat.pos_of_ne_zero h0) (by norm_num : (1:Nat) < 10)
        omega
      simp only [natToRevDigits, if_neg h0, List.foldr_cons, ih _ hdiv]
      omega

theorem charDigit_digitCh {d : Nat} (h : d < 10) : charDigit (digitCh d) = d := by
  interval_cases d <;> decide

theorem isDigit09_digitCh {d : Nat} (h : d < 10) : isDigit09 (digitCh d) = true := by
  interval_cases d <;> decide

theorem natChars_all_digits (n : Nat) : (natChars n).all isDigit09 = true := by
  unfold natChars
  by_cases h : n = 0
  · simp only [h, if_pos rfl]; decide
  · simp only [if_neg h, List.all_eq_true, List.mem_reverse, List.mem_map]
    rintro c ⟨d, hd, rfl⟩
    exact isDigit09_digitCh (natToRevDigits_lt n n d hd)

theorem natChars_ne_nil (n : Nat) : natChars n ≠ [] := by
  unfold natChars
  by_cases h : n = 0
  · simp [h]
  · simp only [if_neg h]
    intro hrev
    rw [List.reverse_eq_nil_iff, List.map_eq_nil_iff] at hrev
    have : (natToRevDigits n n).foldr (fun d acc => acc * 10 + d) 0 = n :=
      valRev_natToRevDigits n n le_rfl
    rw [hrev] at this
    simp only [List.foldr_nil] at this
    exact h this.symm

theorem parseNatChars_natChars (n : Nat) : parseNatChars (natChars n) = some n := by
  unfold parseNatChars
  rw [if_neg (by simp [natChars_ne_nil n]), if_pos (natChars_all_digits n)]
  by_cases h : n = 0
  · subst h; decide
  · congr 1
    unfold natChars
    rw [if_neg h, List.foldl_reverse]
    have hmap : ∀ l : List Nat, (∀ d ∈ l, d < 10) →
        ((l.map digitCh).foldr (fun c acc => acc * 10 + charDigit c) 0 =
          l.foldr (fun d acc => acc * 10 + d) 0) := by
      intro l
      induction l with
      | nil => intro _; rfl
      | cons d t iht =>
        intro hl
        simp only [List.map_cons, List.foldr_cons]
        rw [iht (fun x hx => hl x (List.mem_cons_of_mem d hx)),
          charDigit_digitCh (hl d (List.mem_cons_self d t))]
    rw [hmap _ (natToRevDigits_lt n n), valRev_natToRevDigits n n le_rfl]

theorem natChars_head_digit (n : Nat) :
    ∃ c t, natChars n = c :: t ∧ isDigit09 c = true := by
  rcases hn : natChars n with _ | ⟨c, t⟩
  · exact absurd hn (natChars_ne_nil n)
  · refine ⟨c, t, rfl, ?_⟩
    have := natChars_all_digits n
    rw [hn, List.all_cons, Bool.and_eq_true] at this
    exact this.1

theorem parseIntChars_intChars (i : Int) : parseIntChars (intChars i) = some i := by
  by_cases h : i < 0
  · have hi : intChars i = '-' :: natChars i.natAbs := by rw [intChars, if_pos h]
    rw [parseIntChars, hi]
    simp only [List.head?_cons, List.tail_cons, reduceIte]
    rw [parseNatChars_natChars, Option.map_some']
    congr 1
    simp only [Int.ofNat_eq_coe]
    omega
  · have hi : intChars i = natChars i.toNat := by rw [intChars, if_neg h]
    obtain ⟨c, t, hct, hc⟩ := natChars_head_digit i.toNat
    rw [parseIntChars, hi, hct]
    have hne : ¬((c :: t).head? = some '-') := by
      simp only [List.head?_cons, Option.some.injEq]
      intro hc'; rw [hc'] at hc; exact absurd hc (by decide)
    rw [if_neg hne, ← hct, parseNatChars_natChars, Option.map_some']
    congr 1
    simp only [Int.ofNat_eq_coe]
    omega

theorem mem_natChars_digit {n : Nat} {c : Char} (h : c ∈ natChars n) :
    isDigit09 c = true := by
  have := natChars_all_digits n
  rw [List.all_eq_true] at this
  exact this c h

theorem mem_intChars {i : Int} {c : Char} (h : c ∈ intChars i) :
    isDigit09 c = true ∨ c = '-' := by
  unfold intChars at h
  by_cases hi : i < 0
  · rw [if_pos hi, List.mem_cons] at h
    rcases h with rfl | h
    · exact Or.inr rfl
    · exact Or.inl (mem_natChars_digit h)
  · rw [if_neg hi] at h
    exact Or.inl (mem_natChars_digit h)

theorem mem_ratChars {q : ℚ} {c : Char} (h : c ∈ ratChars q) :
    isDigit09 c = true ∨ c = '-' ∨ c = '/' := by
  unfold ratChars at h
  rw [List.mem_append, List.mem_cons] at h
  rcases h with h | rfl | h
  · rcases mem_intChars h with h' | h'
    · exact Or.inl h'
    · exact Or.inr (Or.inl h')
  · exact Or.inr (Or.inr rfl)
  · exact Or.inl (mem_natChars_digit h)

theorem splitFirstChar_append {sep : Char} {a : List Char} (b : List Char)
    (ha : sep ∉ a) : splitFirstChar sep (a ++ sep :: b) = some (a, b) := by
  induction a with
  | nil => simp [splitFirstChar]
  | cons c t ih =>
    have hc : ¬(c = sep) := fun h => ha (h ▸ List.mem_cons_self c t)
    have ht : sep ∉ t := fun h => ha (List.mem_cons_of_mem c h)
    simp only [List.cons_append, splitFirstChar, if_neg hc]
    rw [show t.append (sep :: b) = t ++ sep :: b from rfl, ih ht]
    rfl

theorem parseRatChars_ratChars (q : ℚ) : parseRatChars (ratChars q) = some q := by
  have hslash : '/' ∉ intChars q.num := by
    intro h
    rcases mem_intChars h with h' | h'
    · exact absurd h' (by decide)
    · exact absurd h' (by decide)
  have hden : ¬((q.den : Nat) = 0) := q.den_nz
  rw [parseRatChars, ratChars, splitFirstChar_append _ hslash]
  simp only [Option.some_bind, parseIntChars_intChars, parseNatChars_natChars, if_neg hden]
  congr 1
  exact_mod_cast Rat.num_div_den q

theorem parseKey_fmtKey (k : ℚ × ℚ) : parseKey (fmtKey k) = some k := by
  have hcomma : ',' ∉ ratChars k.1 := by
    intro h
    rcases mem_ratChars h with h' | h' | h'
    · exact absurd h' (by decide)
    · exact absurd h' (by decide)
    · exact absurd h' (by decide)
  rw [parseKey, fmtKey]
  show ((splitFirstChar ',' (ratChars k.1 ++ ',' :: ratChars k.2)).bind fun p =>
    (parseRatChars p.1).bind fun la =>
      (parseRatChars p.2).map fun lo => (la, lo)) = some k
  rw [splitFirstChar_append _ hcomma]
  simp only [Option.some_bind, parseRatChars_ratChars, Option.map_some']

theorem fmtKey_injective : Function.Injective fmtKey := by
  intro a b hab
  have := parseKey_fmtKey a
  rw [hab, parseKey_fmtKey b] at this
  exact (Option.some.injEq _ _).mp this.symm

theorem assocGet_assocSet [DecidableEq κ] (k : κ) (v : β) (l : List (κ × β)) :
    assocGet k (assocSet k v l) = some v := by
  induction l with
  | nil => simp [assocGet, assocSet]
  | cons p t ih =>
    obtain ⟨k', v'⟩ := p
    by_cases h : k' = k
    · simp [assocSet, assocGet, h]
    · simp [assocSet, assocGet, h, ih]

theorem assocSet_fresh [DecidableEq κ] (k : κ) (v : β) (l : List (κ × β))
    (h : ∀ p ∈ l, p.1 ≠ k) : assocSet k v l = l ++ [(k, v)] := by
  induction l with
  | nil => rfl
  | cons p t ih =>
    obtain ⟨k', v'⟩ := p
    have hk : ¬(k' = k) := h (k', v') (List.mem_cons_self _ _)
    simp only [assocSet, if_neg hk, List.cons_append, List.cons.injEq, true_and]
    exact ih (fun p hp => h p (List.mem_cons_of_mem _ hp))

theorem assocGet_mem [DecidableEq κ] {k : κ} {v : β} {l : List (κ × β)}
    (h : assocGet k l = some v) : (k, v) ∈ l := by
  induction l with
  | nil => exact absurd h (by simp [assocGet])
  | cons p t ih =>
    obtain ⟨k', v'⟩ := p
    unfold assocGet at h
    by_cases hk : k' = k
    · rw [if_pos hk] at h
      injection h with hv
      subst hk
      subst hv
      exact List.mem_cons_self _ _
    · rw [if_neg hk] at h
      exact List.mem_cons_of_mem _ (ih h)

theorem mem_assocSet [DecidableEq κ] (k : κ) (v : β) (l : List (κ × β)) :
    (k, v) ∈ assocSet k v l := by
  induction l with
  | nil => simp [assocSet]
  | cons p t ih =>
    obtain ⟨k', v'⟩ := p
    by_cases h : k' = k
    · simp [assocSet, h]
    · simp only [assocSet, if_neg h, List.mem_cons]
      exact Or.inr ih

/-! ### `load` inverts `save` -/

theorem decode_value_payload (r : GeocodeResult String) :
    decodeValueField (Json.get (payloadFields r) "value") = r.value := by
  obtain ⟨v, ec, msg⟩ := r
  cases v <;> cases ec <;> cases msg <;> rfl

theorem decode_message_payload (r : GeocodeResult String) :
    decodeMessageField (Json.get (payloadFields r) "error_message") = r.error_message := by
  obtain ⟨v, ec, msg⟩ := r
  cases v <;> cases ec <;> cases msg <;> rfl

theorem decode_error_code_payload (r : GeocodeResult String) :
    decodeErrorCodeField (Json.get (payloadFields r) "error_code") = some r.error_code := by
  obtain ⟨v, ec, msg⟩ := r
  cases ec with
  | none => rfl
  | some c => cases c <;> rfl

theorem decodeEntry_encodeEntry (x : (ℚ × ℚ) × GeocodeResult String) :
    decodeEntry (encodeEntry x) = x := by
  obtain ⟨k, r⟩ := x
  unfold decodeEntry encodeEntry resultToJson
  simp only [parseKey_fmtKey, Option.getD_some, decode_value_payload,
    decode_message_payload, decode_error_code_payload]

theorem loadFold_encoded_cons (acc : List ((ℚ × ℚ) × GeocodeResult String))
    (k : ℚ × ℚ) (r : GeocodeResult String) (rest : List (String × Json)) :
    loadFold acc ((fmtKey k, resultToJson r) :: rest) =
      loadFold (assocSet k r acc) rest := by
  have h1 : loadFold acc ((fmtKey k, resultToJson r) :: rest) =
      match parseKey (fmtKey k) with
      | none => loadFold acc rest
      | some key =>
        match decodeErrorCodeField (Json.get (payloadFields r) "error_code") with
        | none => none
        | some ec =>
          loadFold
            (assocSet key
              ⟨decodeValueField (Json.get (payloadFields r) "value"), ec,
               decodeMessageField (Json.get (payloadFields r) "error_message")⟩ acc)
            rest := rfl
  rw [h1, parseKey_fmtKey, decode_error_code_payload, decode_value_payload,
    decode_message_payload]

theorem loadFold_mapEncode (entries : List ((ℚ × ℚ) × GeocodeResult String))
    (acc : List ((ℚ × ℚ) × GeocodeResult String)) :
    loadFold acc (entries.map encodeEntry) =
      some (entries.foldl (fun a e => assocSet e.1 e.2 a) acc) := by
  induction entries generalizing acc with
  | nil => rfl
  | cons e t ih =>
    obtain ⟨k, r⟩ := e
    rw [List.map_cons, encodeEntry, loadFold_encoded_cons, List.foldl_cons, ih]

theorem foldl_assocSet_fresh (entries acc : List ((ℚ × ℚ) × GeocodeResult String))
    (hdisj : ∀ e ∈ entries, ∀ p ∈ acc, p.1 ≠ e.1)
    (hnd : (entries.map Prod.fst).Nodup) :
    entries.foldl (fun a e => assocSet e.1 e.2 a) acc = acc ++ entries := by
  induction entries generalizing acc with
  | nil => simp
  | cons e t ih =>
    rw [List.map_cons, List.nodup_cons] at hnd
    rw [List.foldl_cons,
      assocSet_fresh _ _ _ (fun p hp => hdisj e (List.mem_cons_self e t) p hp)]
    rw [ih (acc ++ [e]) ?_ hnd.2]
    · simp
    · intro x hx p hp
      rcases List.mem_append.mp hp with hp | hp
      · exact hdisj x (List.mem_cons_of_mem e hx) p hp
      · rcases List.mem_singleton.mp hp with rfl
        intro hpe
        exact hnd.1 (hpe ▸ List.mem_map_of_mem Prod.fst hx)

/-- `load` inverts `save` on every cache whose in-memory dict has (as any
Python dict does) pairwise distinct keys; re-saving the loaded cache
yields the identical JSON value, i.e. the identical file bytes. -/
theorem load_save_roundtrip (c : ReverseGeocodeCache)
    (h : (c.data.map Prod.fst).Nodup) :
    ∃ c' : ReverseGeocodeCache,
      ReverseGeocodeCache.load c.save = some c' ∧
      c'.save = c.save ∧ c'.data.Perm c.data ∧ c'.hasPath = true := by
  classical
  set E := c.data.map encodeEntry with hE
  set S := List.insertionSort entryLE E with hS
  have hperm : S.Perm E := List.perm_insertionSort entryLE E
  have hSenc : ((S.map decodeEntry).map encodeEntry) = S := by
    rw [List.map_map]
    conv_rhs => rw [← List.map_id S]
    apply List.map_congr_left
    intro e he
    have heE : e ∈ E := hperm.mem_iff.mp he
    rw [hE] at heE
    obtain ⟨x, _, rfl⟩ := List.mem_map.mp heE
    simp [Function.comp, decodeEntry_encodeEntry]
  have hl'perm : (S.map decodeEntry).Perm c.data := by
    have h1 : (S.map decodeEntry).Perm (E.map decodeEntry) := hperm.map decodeEntry
    have h2 : E.map decodeEntry = c.data := by
      rw [hE, List.map_map]
      apply List.map_id''
      intro x
      exact decodeEntry_encodeEntry x
    rwa [h2] at h1
  have hnd' : ((S.map decodeEntry).map Prod.fst).Nodup := by
    have := (hl'perm.map Prod.fst).nodup_iff
    exact this.mpr h
  refine ⟨⟨S.map decodeEntry, true⟩, ?_, ?_, hl'perm, rfl⟩
  · have hlf : loadFold [] S = some (S.map decodeEntry) := by
      conv_lhs => rw [← hSenc]
      rw [loadFold_mapEncode, foldl_assocSet_fresh _ _ (by simp) hnd', List.nil_append]
    show Option.map (fun d => (⟨d, true⟩ : ReverseGeocodeCache)) (loadFold [] S) = _
    rw [hlf]
    rfl
  · show Json.obj (List.insertionSort entryLE ((S.map decodeEntry).map encodeEntry)) =
      Json.obj (List.insertionSort entryLE E)
    rw [hSenc, ← hS]
    congr 1
    exact List.Sorted.insertionSort_eq (List.sorted_insertionSort entryLE E)

/-! ## Classifier helper lemmas

A string whose first character is a letter (in particular every
error-message string produced by a failed lookup) can never classify as
complete: its street part does not start with a digit. -/

theorem dropWhile_append_singleton (p : Char → Bool) (c : Char)
    (hc : p c = false) (l : List Char) :
    (l ++ [c]).dropWhile p = l.dropWhile p ++ [c] := by
  rw [List.dropWhile_append]
  by_cases h : (l.dropWhile p).isEmpty
  · rw [if_pos h, List.isEmpty_iff.mp h, List.nil_append, List.dropWhile_cons,
      if_neg (by simp [hc])]
  · rw [if_neg h]

theorem rstripWs_cons {c : Char} (hc : isWsPy c = false) (t : List Char) :
    rstripWs (c :: t) = c :: rstripWs t := by
  unfold rstripWs
  rw [List.reverse_cons, dropWhile_append_singleton _ c hc, List.reverse_append]
  rfl

theorem pyStrip_cons {c : Char} (hc : isWsPy c = false) (t : List Char) :
    pyStrip (c :: t) = c :: rstripWs t := by
  unfold pyStrip
  rw [List.dropWhile_cons, if_neg (by simp [hc]), rstripWs_cons hc t]

theorem addressIsComplete_false_of_head {s : String} {c : Char} {rest : List Char}
    (hs : s.data = c :: rest) (hws : isWsPy c = false) (hd : isDigit09 c = false)
    (hc : ¬(c = ',')) : addressIsComplete s = false := by
  unfold addressIsComplete addressIsCompleteChars
  simp only [hs, pyStrip_cons hws rest, List.isEmpty_cons, Bool.false_eq_true, if_false]
  have hstreet : pyStrip (beforeFirstComma (c :: rstripWs rest)) =
      c :: rstripWs ((rstripWs rest).takeWhile (fun x => x ≠ ',')) := by
    unfold beforeFirstComma
    rw [List.takeWhile_cons, if_pos (by simp [hc]), pyStrip_cons hws]
  cases hsearch : stateZipSearch (c :: rstripWs rest) with
  | none => simp [hsearch]
  | some i =>
    simp only [hsearch, hstreet, hd, Bool.false_and]

/-- `addressIsComplete ""` (and on any all-whitespace string). -/
theorem addressIsComplete_empty : addressIsComplete "" = false := by decide

theorem pyLowerChar_self_of_digit {c : Char} (h : isDigit09 c = true) :
    pyLowerChar c = c := by
  unfold isDigit09 at h
  rw [Bool.and_eq_true, decide_eq_true_iff, decide_eq_true_iff] at h
  unfold pyLowerChar
  rw [if_neg]
  rintro ⟨h1, -⟩
  exact absurd h1 (not_le.mpr (lt_of_le_of_lt h.2 (by decide)))

theorem pyLowerChar_self_of_ws {c : Char} (h : isWsPy c = true) :
    pyLowerChar c = c := by
  unfold isWsPy at h
  simp only [Bool.or_eq_true, decide_eq_true_iff] at h
  rcases h with ((((rfl | rfl) | rfl) | rfl) | rfl) | rfl <;> decide

/-- If lowercasing the head of `s` yields one of the initial letters of
the four lookup error messages, the string cannot classify complete. -/
theorem addressIsComplete_false_of_lower_head {s : String} {c : Char}
    {rest : List Char} (hs : s.data = c :: rest)
    (hh : pyLowerChar c ∈ (['n', 'a', 'l', 'e'] : List Char)) :
    addressIsComplete s = false := by
  refine addressIsComplete_false_of_head hs ?_ ?_ ?_
  · by_contra hws
    rw [Bool.not_eq_false] at hws
    rw [pyLowerChar_self_of_ws hws] at hh
    unfold isWsPy at hws
    simp only [Bool.or_eq_true, decide_eq_true_iff] at hws
    rcases hws with ((((rfl | rfl) | rfl) | rfl) | rfl) | rfl <;> simp at hh
  · by_contra hd
    rw [Bool.not_eq_false] at hd
    rw [pyLowerChar_self_of_digit hd] at hh
    unfold isDigit09 at hd
    rw [Bool.and_eq_true, decide_eq_true_iff, decide_eq_true_iff] at hd
    fin_cases hh
    · exact absurd hd.2 (by decide)
    · exact absurd hd.2 (by decide)
    · exact absurd hd.2 (by decide)
    · exact absurd hd.2 (by decide)
  · rintro rfl
    simp only [show pyLowerChar ',' = ',' from rfl] at hh
    simp at hh

/-- A failed or absent reverse suggestion is absent or classifies
incomplete. -/
theorem incomplete_of_suggestionFailed {sugg : Option String}
    (h : suggestionFailed sugg = true) :
    sugg = none ∨ ∃ s, sugg = some s ∧ addressIsComplete s = false := by
  cases sugg with
  | none => exact Or.inl rfl
  | some s =>
    refine Or.inr ⟨s, rfl, ?_⟩
    unfold suggestionFailed at h
    rw [Bool.or_eq_true] at h
    rcases h with h | h
    · rw [(String.isEmpty_iff s).mp h]
      exact addressIsComplete_empty
    · rw [List.any_eq_true] at h
      obtain ⟨m, hm, hpref⟩ := h
      simp only [failedSuggestionMarkers] at hm
      have hex : ∃ c rest, s.data = c :: rest ∧
          pyLowerChar c ∈ (['n', 'a', 'l', 'e'] : List Char) := by
        fin_cases hm
        all_goals {
          cases hsd : s.data with
          | nil =>
            rw [hsd] at hpref
            simp [pyLower, leadsWith] at hpref
          | cons c t =>
            rw [hsd] at hpref
            refine ⟨c, t, rfl, ?_⟩
            simp only [pyLower, List.map_cons, leadsWith, Bool.and_eq_true,
              decide_eq_true_iff] at hpref
            rw [← hpref.1]
            simp
        }
      obtain ⟨c, rest, hcd, hcl⟩ := hex
      exact addressIsComplete_false_of_lower_head hcd hcl

/-- C7: the address-completeness classifier satisfies the specified truth
table: `is_complete("123 Main St, Springfield, CA 90210") = True`,
`is_complete("123 Main St, Springfield, CA, 90210") = True` (optional
comma between state and ZIP tolerated), `is_complete("Main St,
Springfield, CA 90210") = False` (no house number), `is_complete("123
Main St, Springfield, CA") = False` (no ZIP), and `is_complete("")` and
`is_complete(None)` are both `False`. -/
theorem claim_C7_truth_table :
    addressIsComplete "123 Main St, Springfield, CA 90210" = true ∧
    addressIsComplete "123 Main St, Springfield, CA, 90210" = true ∧
    addressIsComplete "Main St, Springfield, CA 90210" = false ∧
    addressIsComplete "123 Main St, Springfield, CA" = false ∧
    addressIsComplete "" = false ∧
    addressIsCompleteOpt none = false := by
  decide

/-- C4 counterexample: the claim asserts that the reverse-geocode
formatter joins house-number and road into one token *and* that on the
stub payload it produces `"123, Main St, Springfield, CA, 90210"` which
classifies as complete.  On the code, the reverse formatter
(`reverse_geocode_address` in `geocode.py`) does produce exactly that
string — house number and road as *separate* tokens — and the classifier
rejects it: its street part `"123"` contains no letter. -/
theorem claim_C4_counterexample :
    reverse_geocode_address (some 34) (some (-118))
        (fun _ => .located (some stubPayload)) =
      ⟨some "123, Main St, Springfield, CA, 90210", none, none⟩ ∧
    addressIsComplete "123, Main St, Springfield, CA, 90210" = false := by
  decide

/-- C4 (amended): the reverse-geocode formatter of `geocode.py` joins
with `", "`, in order, house-number and road as separate tokens, then
locality chosen as city else town else village (hamlet is not
consulted), then state, then postal code; an empty join yields the
incomplete-address outcome rather than an empty string; on the stub
payload it yields `"123, Main St, Springfield, CA, 90210"`, which
classifies as *incomplete* (no letter in its street part).  The sibling
formatter `build_address` used by the row pipeline joins house-number
and road into one token (and does consult hamlet), yielding
`"123 Main St, Springfield, CA, 90210"`, which classifies as
complete. -/
theorem claim_C4_amended (lat lon : ℚ) (a : AddrPayload)
    (hjoin : reverseJoined a = "") :
    reverse_geocode_address (some lat) (some lon) (fun _ => .located (some a)) =
      ⟨none, some .incompleteAddress, some "Address found but incomplete."⟩ ∧
    reverse_geocode_address (some 34) (some (-118))
        (fun _ => .located (some stubPayload)) =
      ⟨some "123, Main St, Springfield, CA, 90210", none, none⟩ ∧
    addressIsComplete "123, Main St, Springfield, CA, 90210" = false ∧
    build_address stubPayload = "123 Main St, Springfield, CA, 90210" ∧
    addressIsComplete "123 Main St, Springfield, CA, 90210" = true := by
  refine ⟨?_, by decide, by decide, by decide, by decide⟩
  show (if (reverseJoined (Option.getD (some a) AddrPayload.empty)).isEmpty then _ else _) = _
  rw [Option.getD_some, hjoin]
  rfl

/-- C4 amended witness: the empty-join hypothesis discharged on the
all-absent payload. -/
theorem claim_C4_amended_witness :
    reverseJoined AddrPayload.empty = "" ∧
    reverse_geocode_address (some 1) (some 2)
        (fun _ => .located (some AddrPayload.empty)) =
      ⟨none, some .incompleteAddress, some "Address found but incomplete."⟩ :=
  ⟨by decide, (claim_C4_amended 1 2 AddrPayload.empty (by decide)).1⟩

/-- C3: for every provider behaviour (a located result, a falsy/empty
result, or a raised exception of any of the modelled classes),
`reverse_geocode_address` returns a `GeocodeResult` — in this embedding
it is a total function into `GeocodeResult String`, so no exception can
propagate — and its `error_code` matches the taxonomy: `missing-lat-lon`
iff lat or lon is absent; `no-results` iff the provider returned a falsy
location (or one without raw data); `incomplete-address` iff a located
result's joined address parts are empty; `timeout`,
`service-unavailable` and `service-error` for the corresponding geocoder
exception classes; `unexpected-error` for an exception of any other
class. -/
theorem claim_C3_error_taxonomy (lat lon : Option ℚ)
    (g : ℚ × ℚ → ReverseOutcome) :
    ((reverse_geocode_address lat lon g).error_code = some .missingLatLon ↔
      lat = none ∨ lon = none) ∧
    ((reverse_geocode_address lat lon g).error_code = some .noResults ↔
      ∃ la lo, lat = some la ∧ lon = some lo ∧ g (la, lo) = .noLocation) ∧
    ((reverse_geocode_address lat lon g).error_code = some .incompleteAddress ↔
      ∃ la lo a, lat = some la ∧ lon = some lo ∧ g (la, lo) = .located a ∧
        reverseJoined (a.getD AddrPayload.empty) = "") ∧
    ((reverse_geocode_address lat lon g).error_code = some .timeout ↔
      ∃ la lo m, lat = some la ∧ lon = some lo ∧ g (la, lo) = .raiseTimedOut m) ∧
    ((reverse_geocode_address lat lon g).error_code = some .serviceUnavailable ↔
      ∃ la lo m, lat = some la ∧ lon = some lo ∧ g (la, lo) = .raiseUnavailable m) ∧
    ((reverse_geocode_address lat lon g).error_code = some .serviceError ↔
      ∃ la lo m, lat = some la ∧ lon = some lo ∧ g (la, lo) = .raiseServiceErr m) ∧
    ((reverse_geocode_address lat lon g).error_code = some .unexpectedError ↔
      ∃ la lo m, lat = some la ∧ lon = some lo ∧ g (la, lo) = .raiseOther m) := by
  cases lat with
  | none => simp [reverse_geocode_address]
  | some la =>
    cases lon with
    | none => simp [reverse_geocode_address]
    | some lo =>
      cases hg : g (la, lo) with
      | located a =>
        by_cases hj : reverseJoined (a.getD AddrPayload.empty) = ""
        · have hemp : (reverseJoined (a.getD AddrPayload.empty)).isEmpty = true :=
            (String.isEmpty_iff _).mpr hj
          have hres : reverse_geocode_address (some la) (some lo) g =
              ⟨none, some .incompleteAddress, some "Address found but incomplete."⟩ := by
            simp only [reverse_geocode_address, hg]
            rw [if_pos hemp]
          rw [hres]
          simp [hg, hj]
        · have hemp : (reverseJoined (a.getD AddrPayload.empty)).isEmpty = false := by
            rw [Bool.eq_false_iff]
            intro hemp'
            exact hj ((String.isEmpty_iff _).mp hemp')
          have hres : reverse_geocode_address (some la) (some lo) g =
              ⟨some (reverseJoined (a.getD AddrPayload.empty)), none, none⟩ := by
            simp only [reverse_geocode_address, hg]
            rw [if_neg (by simp [hemp])]
          rw [hres]
          simp [hg, hj]
      | noLocation => simp [reverse_geocode_address, hg]
      | raiseTimedOut m => simp [reverse_geocode_address, hg]
      | raiseUnavailable m => simp [reverse_geocode_address, hg]
      | raiseServiceErr m => simp [reverse_geocode_address, hg]
      | raiseOther m => simp [reverse_geocode_address, hg]

/-- C5: for a coordinate not yet in the cache, the first cached reverse
lookup invokes the underlying provider exactly once and stores the
result under the (float-coerced) coordinate key, and a second call on
the same coordinate and resulting cache returns that stored result from
the cache with zero further provider invocations. -/
theorem claim_C5_cache_idempotence (la lo : ℚ) (g : ℚ × ℚ → ReverseOutcome)
    (cache : ReverseGeocodeCache) (h : cache.get (la, lo) = none) :
    reverse_geocode_address_cached (some la) (some lo) g cache =
      (reverse_geocode_address (some la) (some lo) g,
       cache.set (la, lo) (reverse_geocode_address (some la) (some lo) g), 1) ∧
    (cache.set (la, lo) (reverse_geocode_address (some la) (some lo) g)).get (la, lo) =
      some (reverse_geocode_address (some la) (some lo) g) ∧
    reverse_geocode_address_cached (some la) (some lo) g
        (cache.set (la, lo) (reverse_geocode_address (some la) (some lo) g)) =
      (reverse_geocode_address (some la) (some lo) g,
       cache.set (la, lo) (reverse_geocode_address (some la) (some lo) g), 0) := by
  have hget : (cache.set (la, lo) (reverse_geocode_address (some la) (some lo) g)).get
      (la, lo) = some (reverse_geocode_address (some la) (some lo) g) :=
    assocGet_assocSet _ _ _
  refine ⟨?_, hget, ?_⟩
  · show (match cache.get (la, lo) with
      | some cached => (cached, cache, 0)
      | none =>
        (reverse_geocode_address (some la) (some lo) g,
         cache.set (la, lo) (reverse_geocode_address (some la) (some lo) g), 1)) = _
    rw [h]
  · show (match (cache.set (la, lo) (reverse_geocode_address (some la) (some lo) g)).get
        (la, lo) with
      | some cached =>
        (cached, cache.set (la, lo) (reverse_geocode_address (some la) (some lo) g), 0)
      | none =>
        (reverse_geocode_address (some la) (some lo) g,
         (cache.set (la, lo) (reverse_geocode_address (some la) (some lo) g)).set (la, lo)
           (reverse_geocode_address (some la) (some lo) g), 1)) = _
    rw [hget]

/-- C5 witness: a fresh coordinate against a stub provider. -/
theorem claim_C5_witness :
    (⟨[], false⟩ : ReverseGeocodeCache).get (1, 2) = none ∧
    reverse_geocode_address_cached (some 1) (some 2) (fun _ => .noLocation)
        ⟨[], false⟩ =
      (⟨none, some .noResults, some "No address found via reverse geocoding."⟩,
       ⟨[((1, 2), ⟨none, some .noResults,
          some "No address found via reverse geocoding."⟩)], false⟩, 1) := by
  refine ⟨rfl, ?_⟩
  have := (claim_C5_cache_idempotence 1 2 (fun _ => .noLocation) ⟨[], false⟩ rfl).1
  rw [this]
  rfl

/-- C10: an error outcome is cached exactly like a success — when the
first cached lookup of a fresh coordinate classifies to any of the six
per-row error kinds, that error result is stored under the
(float-coerced) key, its serialized form is part of what `save` persists
to a bound backing path, and every subsequent call for the same
coordinate returns the cached error result with zero provider
invocations (the updated cache is a fixpoint of the call, so the failure
is never retried through the cache). -/
theorem claim_C10_errors_cached (la lo : ℚ) (g : ℚ × ℚ → ReverseOutcome)
    (cache : ReverseGeocodeCache) (e : GeocodeErrorCode)
    (h : cache.get (la, lo) = none)
    (he : (reverse_geocode_address (some la) (some lo) g).error_code = some e)
    (hkind : e ∈ [GeocodeErrorCode.noResults, .incompleteAddress, .timeout,
      .serviceUnavailable, .serviceError, .unexpectedError]) :
    reverse_geocode_address_cached (some la) (some lo) g cache =
      (reverse_geocode_address (some la) (some lo) g,
       cache.set (la, lo) (reverse_geocode_address (some la) (some lo) g), 1) ∧
    (cache.set (la, lo) (reverse_geocode_address (some la) (some lo) g)).get (la, lo) =
      some (reverse_geocode_address (some la) (some lo) g) ∧
    (fmtKey (la, lo), resultToJson (reverse_geocode_address (some la) (some lo) g)) ∈
      saveEntries (cache.set (la, lo) (reverse_geocode_address (some la) (some lo) g)).data ∧
    reverse_geocode_address_cached (some la) (some lo) g
        (cache.set (la, lo) (reverse_geocode_address (some la) (some lo) g)) =
      (reverse_geocode_address (some la) (some lo) g,
       cache.set (la, lo) (reverse_geocode_address (some la) (some lo) g), 0) := by
  have hget : (cache.set (la, lo) (reverse_geocode_address (some la) (some lo) g)).get
      (la, lo) = some (reverse_geocode_address (some la) (some lo) g) :=
    assocGet_assocSet _ _ _
  refine ⟨?_, hget, ?_, ?_⟩
  · show (match cache.get (la, lo) with
      | some cached => (cached, cache, 0)
      | none =>
        (reverse_geocode_address (some la) (some lo) g,
         cache.set (la, lo) (reverse_geocode_address (some la) (some lo) g), 1)) = _
    rw [h]
  · unfold saveEntries
    rw [List.mem_insertionSort]
    exact List.mem_map_of_mem _ (mem_assocSet _ _ _)
  · show (match (cache.set (la, lo) (reverse_geocode_address (some la) (some lo) g)).get
        (la, lo) with
      | some cached =>
        (cached, cache.set (la, lo) (reverse_geocode_address (some la) (some lo) g), 0)
      | none =>
        (reverse_geocode_address (some la) (some lo) g,
         (cache.set (la, lo) (reverse_geocode_address (some la) (some lo) g)).set (la, lo)
           (reverse_geocode_address (some la) (some lo) g), 1)) = _
    rw [hget]

/-- C10 witness: a timeout outcome on a fresh coordinate. -/
theorem claim_C10_witness :
    (⟨[], true⟩ : ReverseGeocodeCache).get (3, 4) = none ∧
    (reverse_geocode_address (some 3) (some 4)
      (fun _ => .raiseTimedOut "read timed out")).error_code = some .timeout ∧
    reverse_geocode_address_cached (some 3) (some 4)
        (fun _ => .raiseTimedOut "read timed out")
        (⟨[((3, 4), ⟨none, some .timeout, some "read timed out"⟩)], true⟩ :
          ReverseGeocodeCache) =
      (⟨none, some .timeout, some "read timed out"⟩,
       ⟨[((3, 4), ⟨none, some .timeout, some "read timed out"⟩)], true⟩, 0) := by
  refine ⟨rfl, rfl, ?_⟩
  have := (claim_C10_errors_cached 3 4 (fun _ => .raiseTimedOut "read timed out")
    ⟨[], true⟩ .timeout rfl rfl (by decide)).2.2.2
  exact this

/-- C6: the cache round-trips — for any cache state (any Python dict has
pairwise distinct keys), saving it, loading the saved JSON and re-saving
without mutation produces the identical JSON value, hence byte-identical
file output (keys are serialized as sorted `"lat,lon"` strings and the
dump is deterministic); and a fresh `set` immediately followed by `get`
on the same coordinate key returns the just-stored result — in
particular a cached reverse lookup after the `set` is served from the
cache with zero provider invocations. -/
theorem claim_C6_cache_roundtrip (c : ReverseGeocodeCache)
    (h : (c.data.map Prod.fst).Nodup) (k : ℚ × ℚ) (v : GeocodeResult String)
    (g : ℚ × ℚ → ReverseOutcome) :
    (∃ c', ReverseGeocodeCache.load c.save = some c' ∧ c'.save = c.save) ∧
    (c.set k v).get k = some v ∧
    reverse_geocode_address_cached (some k.1) (some k.2) g (c.set k v) =
      (v, c.set k v, 0) := by
  obtain ⟨c', hload, hsave, -, -⟩ := load_save_roundtrip c h
  refine ⟨⟨c', hload, hsave⟩, assocGet_assocSet _ _ _, ?_⟩
  show (match (c.set k v).get (k.1, k.2) with
    | some cached => (cached, c.set k v, 0)
    | none =>
      (reverse_geocode_address (some k.1) (some k.2) g,
       (c.set k v).set (k.1, k.2) (reverse_geocode_address (some k.1) (some k.2) g),
       1)) = (v, c.set k v, 0)
  have : (c.set k v).get (k.1, k.2) = some v := by
    rw [show ((k.1, k.2) : ℚ × ℚ) = k from rfl]
    exact assocGet_assocSet _ _ _
  rw [this]

/-- C6 witness: a one-entry cache. -/
theorem claim_C6_witness :
    ((((⟨[((1, 2), ⟨some "5 Elm St", none, none⟩)], true⟩ :
        ReverseGeocodeCache).data.map Prod.fst).Nodup) ∧
    ∃ c', ReverseGeocodeCache.load
        (⟨[((1, 2), ⟨some "5 Elm St", none, none⟩)], true⟩ :
          ReverseGeocodeCache).save = some c' ∧
      c'.save = (⟨[((1, 2), ⟨some "5 Elm St", none, none⟩)], true⟩ :
          ReverseGeocodeCache).save) := by
  refine ⟨by decide, ?_⟩
  exact (claim_C6_cache_roundtrip
    ⟨[((1, 2), ⟨some "5 Elm St", none, none⟩)], true⟩ (by decide) (0, 0)
    ⟨none, none, none⟩ (fun _ => .noLocation)).1

/-- C8 counterexample: the claim asserts that every entry reconstructed
by `ReverseGeocodeCache.load` has exactly one of `value` and
`error_code` present.  Loading a file whose payload for a well-formed
key is the empty object (in the real program,
`{"1.0,2.0": {}}`) yields an entry with *neither* present. -/
theorem claim_C8_counterexample :
    ∃ c', ReverseGeocodeCache.load (Json.obj [("1/1,2/1", Json.obj [])]) = some c' ∧
      ∃ e ∈ c'.data, e.2.value = none ∧ e.2.error_code = none := by
  refine ⟨⟨[(((((1 : ℤ) : ℚ) / ((1 : ℕ) : ℚ)), (((2 : ℤ) : ℚ) / ((1 : ℕ) : ℚ))),
    ⟨none, none, none⟩)], true⟩, rfl, ?_⟩
  exact ⟨_, List.mem_cons_self _ _, rfl, rfl⟩

/-- C8 (amended): every `GeocodeResult` produced by `geocode_place` and
`reverse_geocode_address` has exactly one of `value` and `error_code`
present, and is `ok` iff `error_code` is absent;
`reverse_geocode_address_cached` preserves this whenever every entry of
the supplied cache satisfies it; and reloading a *previously saved*
cache whose entries satisfy it reconstructs only entries satisfying it.
(`load` itself copies whatever combination of fields a foreign file
stores, so an arbitrary file can inject an entry with neither or both
fields present.) -/
theorem claim_C8_amended (q : String) (fg : String → ForwardOutcome)
    (lat lon : Option ℚ) (g : ℚ × ℚ → ReverseOutcome)
    (cache : ReverseGeocodeCache) (hc : ∀ e ∈ cache.data, e.2.exclusive)
    (c0 : ReverseGeocodeCache) (h0 : (c0.data.map Prod.fst).Nodup)
    (he0 : ∀ e ∈ c0.data, e.2.exclusive) :
    ((geocode_place q fg).exclusive ∧
      ((geocode_place q fg).ok = true ↔ (geocode_place q fg).error_code = none)) ∧
    ((reverse_geocode_address lat lon g).exclusive ∧
      ((reverse_geocode_address lat lon g).ok = true ↔
        (reverse_geocode_address lat lon g).error_code = none)) ∧
    ((reverse_geocode_address_cached lat lon g cache).1.exclusive ∧
      ((reverse_geocode_address_cached lat lon g cache).1.ok = true ↔
        (reverse_geocode_address_cached lat lon g cache).1.error_code = none)) ∧
    (∃ c', ReverseGeocodeCache.load c0.save = some c' ∧
      ∀ e ∈ c'.data, e.2.exclusive) := by
  have hok : ∀ (r : GeocodeResult String),
      (r.ok = true ↔ r.error_code = none) := by
    intro r
    unfold GeocodeResult.ok
    rw [Option.isNone_iff_eq_none]
  have hokp : ∀ (r : GeocodeResult (ℚ × ℚ)),
      (r.ok = true ↔ r.error_code = none) := by
    intro r
    unfold GeocodeResult.ok
    rw [Option.isNone_iff_eq_none]
  have hrev : ∀ (lat' lon' : Option ℚ),
      (reverse_geocode_address lat' lon' g).exclusive := by
    intro lat' lon'
    cases lat' with
    | none => simp [reverse_geocode_address, GeocodeResult.exclusive]
    | some la =>
      cases lon' with
      | none => simp [reverse_geocode_address, GeocodeResult.exclusive]
      | some lo =>
        cases hg : g (la, lo) with
        | located a =>
          by_cases hemp : (reverseJoined (a.getD AddrPayload.empty)).isEmpty
          · have hres : reverse_geocode_address (some la) (some lo) g =
                ⟨none, some .incompleteAddress, some "Address found but incomplete."⟩ := by
              simp only [reverse_geocode_address, hg]
              rw [if_pos hemp]
            rw [hres]
            simp [GeocodeResult.exclusive]
          · have hres : reverse_geocode_address (some la) (some lo) g =
                ⟨some (reverseJoined (a.getD AddrPayload.empty)), none, none⟩ := by
              simp only [reverse_geocode_address, hg]
              rw [if_neg hemp]
            rw [hres]
            simp [GeocodeResult.exclusive]
        | noLocation => simp [reverse_geocode_address, hg, GeocodeResult.exclusive]
        | raiseTimedOut m => simp [reverse_geocode_address, hg, GeocodeResult.exclusive]
        | raiseUnavailable m => simp [reverse_geocode_address, hg, GeocodeResult.exclusive]
        | raiseServiceErr m => simp [reverse_geocode_address, hg, GeocodeResult.exclusive]
        | raiseOther m => simp [reverse_geocode_address, hg, GeocodeResult.exclusive]
  refine ⟨⟨?_, hokp _⟩, ⟨hrev lat lon, hok _⟩, ⟨?_, hok _⟩, ?_⟩
  · by_cases hq : q.isEmpty
    · have : geocode_place q fg = ⟨none, some .emptyQuery, some "Query cannot be empty."⟩ := by
        unfold geocode_place
        rw [if_pos hq]
      rw [this]
      simp [GeocodeResult.exclusive]
    · have hstep : geocode_place q fg = (match fg q with
        | .noLocation => ⟨none, some .noResults, some "No results found."⟩
        | .located la lo _ => ⟨some (la, lo), none, none⟩
        | .raiseTimedOut m => ⟨none, some .timeout, some m⟩
        | .raiseUnavailable m => ⟨none, some .serviceUnavailable, some m⟩
        | .raiseServiceErr m => ⟨none, some .serviceError, some m⟩
        | .raiseOther m => ⟨none, some .unexpectedError, some m⟩) := by
        unfold geocode_place
        rw [if_neg hq]
      rw [hstep]
      cases fg q <;> simp [GeocodeResult.exclusive]
  · cases lat with
    | none => simp [reverse_geocode_address_cached, GeocodeResult.exclusive]
    | some la =>
      cases lon with
      | none => simp [reverse_geocode_address_cached, GeocodeResult.exclusive]
      | some lo =>
        cases hcg : cache.get (la, lo) with
        | some cached =>
          have : (reverse_geocode_address_cached (some la) (some lo) g cache).1 = cached := by
            show (match cache.get (la, lo) with
              | some cached => (cached, cache, 0)
              | none =>
                (reverse_geocode_address (some la) (some lo) g,
                 cache.set (la, lo) (reverse_geocode_address (some la) (some lo) g),
                 1)).1 = cached
            rw [hcg]
          rw [this]
          exact hc _ (assocGet_mem hcg)
        | none =>
          have : (reverse_geocode_address_cached (some la) (some lo) g cache).1 =
              reverse_geocode_address (some la) (some lo) g := by
            show (match cache.get (la, lo) with
              | some cached => (cached, cache, 0)
              | none =>
                (reverse_geocode_address (some la) (some lo) g,
                 cache.set (la, lo) (reverse_geocode_address (some la) (some lo) g),
                 1)).1 = _
            rw [hcg]
          rw [this]
          exact hrev _ _
  · obtain ⟨c', hload, -, hperm, -⟩ := load_save_roundtrip c0 h0
    exact ⟨c', hload, fun e he => he0 e (hperm.mem_iff.mp he)⟩

/-- C8 amended witness: concrete instances of every hypothesis. -/
theorem claim_C8_amended_witness :
    (∀ e ∈ (⟨[((1, 2), ⟨some "5 Elm St", none, none⟩)], true⟩ :
        ReverseGeocodeCache).data, e.2.exclusive) ∧
    (reverse_geocode_address_cached (some 1) (some 2) (fun _ => .noLocation)
      ⟨[((1, 2), ⟨some "5 Elm St", none, none⟩)], true⟩).1.exclusive := by
  have h := claim_C8_amended "q" (fun _ => .noLocation) (some 1) (some 2)
    (fun _ => .noLocation) ⟨[((1, 2), ⟨some "5 Elm St", none, none⟩)], true⟩
    (by decide) ⟨[], true⟩ (by decide) (by decide)
  exact ⟨by decide, h.2.2.1.1⟩

/-- A forward attempt never yields the empty string as a value. -/
theorem forward_value_nonempty {q : Option String} {fg : String → ForwardOutcome}
    {v : String} (h : (forward_geocode_address q fg).1 = some v) : v ≠ "" := by
  cases q with
  | none => exact absurd h (by simp [forward_geocode_address])
  | some s =>
    simp only [forward_geocode_address] at h
    by_cases hs : s.isEmpty
    · rw [if_pos hs] at h
      exact absurd h (by simp)
    · rw [if_neg hs] at h
      cases hf : fg s with
      | located la lo a =>
        rw [hf] at h
        replace h : (if (build_address (a.getD AddrPayload.empty)).isEmpty = true
            then (none : Option String)
            else some (build_address (a.getD AddrPayload.empty))) = some v := h
        by_cases hb : (build_address (a.getD AddrPayload.empty)).isEmpty
        · rw [if_pos hb] at h
          exact absurd h (by simp)
        · rw [if_neg hb] at h
          injection h with hv
          subst hv
          intro hv'
          rw [hv'] at hb
          exact hb rfl
      | noLocation => rw [hf] at h; exact absurd h (by simp)
      | raiseTimedOut m => rw [hf] at h; exact absurd h (by simp)
      | raiseUnavailable m => rw [hf] at h; exact absurd h (by simp)
      | raiseServiceErr m => rw [hf] at h; exact absurd h (by simp)
      | raiseOther m => rw [hf] at h; exact absurd h (by simp)

/-- C2: the forward-search fallback (i) is attempted — invokes the
forward provider, or records forward provenance — only when it is
enabled, a forward geocoder is supplied, and the reverse attempt's value
is absent or itself classifies as incomplete; (ii) is skipped entirely
(no forward-provider invocation) when no query can be built from the
row's name/existing-address/locality fields; (iii) when the forward
attempt yields a value, that value replaces the reverse result and the
recorded provenance is `"forward search"`; (iv) otherwise a truthy
reverse-produced suggestion is kept and carries provenance
`"reverse geocode"`. -/
theorem claim_C2_forward_fallback (row : Row) (existing : String)
    (sugg : Option String) (enable : Bool)
    (fgOpt : Option (String → ForwardOutcome)) :
    (((rowForward row existing sugg enable fgOpt).2.2 ≠ 0 ∨
        (rowForward row existing sugg enable fgOpt).2.1 = some "forward search") →
      enable = true ∧ fgOpt.isSome = true ∧
        (sugg = none ∨ ∃ s, sugg = some s ∧ addressIsComplete s = false)) ∧
    (build_search_query row existing = none →
      (rowForward row existing sugg enable fgOpt).2.2 = 0) ∧
    (∀ fg v, fgOpt = some fg → enable = true → suggestionFailed sugg = true →
      (forward_geocode_address (build_search_query row existing) fg).1 = some v →
      (rowForward row existing sugg enable fgOpt).1 = some v ∧
        (rowForward row existing sugg enable fgOpt).2.1 = some "forward search") ∧
    (∀ s, sugg = some s → s ≠ "" →
      (rowForward row existing sugg enable fgOpt).2.1 ≠ some "forward search" →
      (rowForward row existing sugg enable fgOpt).1 = some s ∧
        (rowForward row existing sugg enable fgOpt).2.1 = some "reverse geocode") := by
  have htr : ∀ s : String, sugg = some s → s ≠ "" → suggTruthy sugg = true := by
    rintro s rfl hs
    unfold suggTruthy
    rw [Bool.not_eq_true']
    rw [Bool.eq_false_iff]
    intro hemp
    exact hs ((String.isEmpty_iff s).mp hemp)
  cases henable : enable with
  | false =>
    have hrw : rowForward row existing sugg false fgOpt =
        (if suggTruthy sugg then (sugg, some "reverse geocode", 0)
         else (sugg, none, 0)) := rfl
    rw [hrw]
    by_cases hst : suggTruthy sugg
    · rw [if_pos hst]
      refine ⟨?_, fun _ => rfl, ?_, ?_⟩
      · rintro (hn | hn) <;> simp at hn
      · intro fg v _ hen
        exact absurd hen (by simp)
      · rintro s rfl _ _
        exact ⟨rfl, rfl⟩
    · rw [if_neg hst]
      refine ⟨?_, fun _ => rfl, ?_, ?_⟩
      · rintro (hn | hn) <;> simp at hn
      · intro fg v _ hen
        exact absurd hen (by simp)
      · rintro s rfl hs _
        exact absurd (htr s rfl hs) hst
  | true =>
    cases fgOpt with
    | none =>
      have hrw : rowForward row existing sugg true none =
          (if suggTruthy sugg then (sugg, some "reverse geocode", 0)
           else (sugg, none, 0)) := rfl
      rw [hrw]
      by_cases hst : suggTruthy sugg
      · rw [if_pos hst]
        refine ⟨?_, fun _ => rfl, ?_, ?_⟩
        · rintro (hn | hn) <;> simp at hn
        · intro fg v hfg
          exact absurd hfg (by simp)
        · rintro s rfl _ _
          exact ⟨rfl, rfl⟩
      · rw [if_neg hst]
        refine ⟨?_, fun _ => rfl, ?_, ?_⟩
        · rintro (hn | hn) <;> simp at hn
        · intro fg v hfg
          exact absurd hfg (by simp)
        · rintro s rfl hs _
          exact absurd (htr s rfl hs) hst
    | some fg =>
      have hrw0 : rowForward row existing sugg true (some fg) =
          (if suggestionFailed sugg then
            (let fwd := forward_geocode_address (build_search_query row existing) fg
             if suggTruthy fwd.1 then (fwd.1, some "forward search", fwd.2)
             else if suggTruthy sugg then (sugg, some "reverse geocode", fwd.2)
             else (sugg, none, fwd.2))
           else if suggTruthy sugg then (sugg, some "reverse geocode", 0)
           else (sugg, none, 0)) := rfl
      by_cases hfail : suggestionFailed sugg
      · have hrw : rowForward row existing sugg true (some fg) =
            (let fwd := forward_geocode_address (build_search_query row existing) fg
             if suggTruthy fwd.1 then (fwd.1, some "forward search", fwd.2)
             else if suggTruthy sugg then (sugg, some "reverse geocode", fwd.2)
             else (sugg, none, fwd.2)) := by
          rw [hrw0, if_pos hfail]
        rw [hrw]
        simp only []
        by_cases hft : suggTruthy (forward_geocode_address
            (build_search_query row existing) fg).1
        · rw [if_pos hft]
          refine ⟨?_, ?_, ?_, ?_⟩
          · intro _
            exact ⟨by trivial, by trivial, incomplete_of_suggestionFailed hfail⟩
          · intro hq
            show (forward_geocode_address (build_search_query row existing) fg).2 = 0
            rw [hq]
            rfl
          · intro fg' v hfg' _ _ hv
            injection hfg' with hfg'
            subst hfg'
            rw [hv]
            exact ⟨rfl, rfl⟩
          · rintro s rfl _ hns
            exact absurd rfl hns
        · rw [if_neg hft]
          by_cases hst : suggTruthy sugg
          · rw [if_pos hst]
            refine ⟨?_, ?_, ?_, ?_⟩
            · intro _
              exact ⟨by trivial, by trivial, incomplete_of_suggestionFailed hfail⟩
            · intro hq
              show (forward_geocode_address (build_search_query row existing) fg).2 = 0
              rw [hq]
              rfl
            · intro fg' v hfg' _ _ hv
              injection hfg' with hfg'
              subst hfg'
              rw [hv] at hft
              have : suggTruthy (some v) = true := by
                unfold suggTruthy
                rw [Bool.not_eq_true']
                rw [Bool.eq_false_iff]
                intro hemp
                exact forward_value_nonempty hv ((String.isEmpty_iff v).mp hemp)
              exact absurd this hft
            · rintro s rfl _ _
              exact ⟨rfl, rfl⟩
          · rw [if_neg hst]
            refine ⟨?_, ?_, ?_, ?_⟩
            · intro _
              exact ⟨by trivial, by trivial, incomplete_of_suggestionFailed hfail⟩
            · intro hq
              show (forward_geocode_address (build_search_query row existing) fg).2 = 0
              rw [hq]
              rfl
            · intro fg' v hfg' _ _ hv
              injection hfg' with hfg'
              subst hfg'
              rw [hv] at hft
              have : suggTruthy (some v) = true := by
                unfold suggTruthy
                rw [Bool.not_eq_true']
                rw [Bool.eq_false_iff]
                intro hemp
                exact forward_value_nonempty hv ((String.isEmpty_iff v).mp hemp)
              exact absurd this hft
            · rintro s rfl hs _
              exact absurd (htr s rfl hs) hst
      · have hrw : rowForward row existing sugg true (some fg) =
            (if suggTruthy sugg then (sugg, some "reverse geocode", 0)
             else (sugg, none, 0)) := by
          rw [hrw0, if_neg hfail]
        rw [hrw]
        by_cases hst : suggTruthy sugg
        · rw [if_pos hst]
          refine ⟨?_, fun _ => rfl, ?_, ?_⟩
          · rintro (hn | hn) <;> simp at hn
          · intro fg' v _ _ hfl
            exact absurd hfl hfail
          · rintro s rfl _ _
            exact ⟨rfl, rfl⟩
        · rw [if_neg hst]
          refine ⟨?_, fun _ => rfl, ?_, ?_⟩
          · rintro (hn | hn) <;> simp at hn
          · intro fg' v _ _ hfl
            exact absurd hfl hfail
          · rintro s rfl hs _
            exact absurd (htr s rfl hs) hst

/-- C2 witness: a row with no query material — the forward attempt is
skipped entirely. -/
theorem claim_C2_witness :
    build_search_query [] "" = none ∧
    (rowForward [] "" none true (some (fun _ => .noLocation))).2.2 = 0 := by
  refine ⟨by decide, ?_⟩
  exact (claim_C2_forward_fallback [] "" none true
    (some (fun _ => .noLocation))).2.1 (by decide)

/-- C1 (amended): for a targeted row processed non-interactively, the
resolution priority is: (i) whenever no usable coordinate is available
(`lat_lon_ready` false, or the row's lat or lon is NA), the written
value is the sentinel `"Missing lat/lon"` — regardless of any existing
address or forward suggestion; (ii) otherwise the written value is the
suggestion if one exists, else the prior existing address — where a
failed reverse lookup produces an error-message *string* that counts as
the suggestion; in particular (iii) a row with fresh coordinates whose
provider call returns no location is overwritten with
`"No address found via reverse geocoding"` (forward search disabled)
rather than keeping its original address. -/
theorem claim_C1_amended (row : Row) (cache : List ((ℚ × ℚ) × String))
    (g : ℚ × ℚ → ReverseOutcome) (fgOpt : Option (String → ForwardOutcome))
    (flags : EnrichFlags) (prompt : PromptOracle)
    (addrC latCn lonCn : String) (ready : Bool)
    (hni : flags.interactive = false) :
    ((!ready || !cellNotNa (if ready then rowGet row latCn else none) ||
        !cellNotNa (if ready then rowGet row lonCn else none)) = true →
      (enrichRow row cache g fgOpt flags prompt addrC latCn lonCn ready).1 =
        "Missing lat/lon") ∧
    (ready = true → cellNotNa (rowGet row latCn) = true →
      cellNotNa (rowGet row lonCn) = true →
      (enrichRow row cache g fgOpt flags prompt addrC latCn lonCn ready).1 =
        (optTruthy
          (enrichRow row cache g fgOpt flags prompt addrC latCn lonCn ready).2.1).getD
          (pyStripStr (pyStrOr (rowGet row addrC)))) ∧
    (∀ la lo, ready = true → rowGet row latCn = some (.num la) →
      rowGet row lonCn = some (.num lo) → assocGet (la, lo) cache = none →
      g (la, lo) = .noLocation → flags.enable_forward_search = false →
      (enrichRow row cache g fgOpt flags prompt addrC latCn lonCn ready).1 =
        "No address found via reverse geocoding") := by
  obtain ⟨fi, fom, foi, frc, fes⟩ := flags
  simp only at hni
  subst hni
  refine ⟨?_, ?_, ?_⟩
  · intro hcond
    have h1 : (enrichRow row cache g fgOpt ⟨false, fom, foi, frc, fes⟩ prompt
        addrC latCn lonCn ready).1 =
        (if (!ready || !cellNotNa (if ready then rowGet row latCn else none) ||
            !cellNotNa (if ready then rowGet row lonCn else none)) = true
         then "Missing lat/lon"
         else match optTruthy (rowForward row
            (pyStripStr (pyStrOr (rowGet row addrC)))
            (rowReverse (if ready then rowGet row latCn else none)
              (if ready then rowGet row lonCn else none) ready g cache).1
            fes fgOpt).1 with
          | some s => s
          | none => pyStripStr (pyStrOr (rowGet row addrC))) := rfl
    rw [h1, if_pos hcond]
  · intro hready hlat hlon
    subst hready
    have h1 : (enrichRow row cache g fgOpt ⟨false, fom, foi, frc, fes⟩ prompt
        addrC latCn lonCn true).1 =
        (if (!true || !cellNotNa (rowGet row latCn) ||
            !cellNotNa (rowGet row lonCn)) = true
         then "Missing lat/lon"
         else match optTruthy (enrichRow row cache g fgOpt
            ⟨false, fom, foi, frc, fes⟩ prompt addrC latCn lonCn true).2.1 with
          | some s => s
          | none => pyStripStr (pyStrOr (rowGet row addrC))) := rfl
    rw [h1, if_neg (by rw [hlat, hlon]; decide)]
    cases optTruthy (enrichRow row cache g fgOpt ⟨false, fom, foi, frc, fes⟩
        prompt addrC latCn lonCn true).2.1 <;> rfl
  · intro la lo hready hlat hlon hcache hg hfes
    subst hready
    simp only at hfes
    subst hfes
    have hrg : reverse_geocode la lo g cache =
        ("No address found via reverse geocoding",
         assocSet (la, lo) "No address found via reverse geocoding" cache, 1) := by
      have h1 : reverse_geocode la lo g cache =
          (match assocGet (la, lo) cache with
           | some v => (v, cache, 0)
           | none =>
             let stored : String :=
               match g (la, lo) with
               | .noLocation => "No address found via reverse geocoding"
               | .located addrOpt =>
                 let formatted := build_address (addrOpt.getD AddrPayload.empty)
                 if formatted.isEmpty then "Address found but incomplete" else formatted
               | .raiseTimedOut _ => "Lookup failed: GeocoderTimedOut"
               | .raiseUnavailable _ => "Lookup failed: GeocoderUnavailable"
               | .raiseServiceErr _ => "Lookup failed: GeocoderServiceError"
               | .raiseOther _ => "Error during lookup"
             (stored, assocSet (la, lo) stored cache, 1)) := rfl
      rw [h1, hcache, hg]
    have hrev : rowReverse (some (.num la)) (some (.num lo)) true g cache =
        (some "No address found via reverse geocoding",
         assocSet (la, lo) "No address found via reverse geocoding" cache, 1) := by
      have h2 : rowReverse (some (.num la)) (some (.num lo)) true g cache =
          (some (reverse_geocode la lo g cache).1,
           (reverse_geocode la lo g cache).2.1,
           (reverse_geocode la lo g cache).2.2) := rfl
      rw [h2, hrg]
    have h3 : (enrichRow row cache g fgOpt ⟨false, fom, foi, frc, false⟩ prompt
        addrC latCn lonCn true).1 =
        rowResolve false prompt frc (pyStripStr (pyStrOr (rowGet row addrC)))
          (rowForward row (pyStripStr (pyStrOr (rowGet row addrC)))
            (rowReverse (rowGet row latCn) (rowGet row lonCn) true g cache).1
            false fgOpt).1
          (rowForward row (pyStripStr (pyStrOr (rowGet row addrC)))
            (rowReverse (rowGet row latCn) (rowGet row lonCn) true g cache).1
            false fgOpt).2.1
          true (rowGet row latCn) (rowGet row lonCn) := rfl
    rw [h3, hlat, hlon, hrev]
    rfl

theorem assocGet_assocSet_ne [DecidableEq κ] {k' k : κ} (v : β)
    (l : List (κ × β)) (h : k' ≠ k) :
    assocGet k' (assocSet k v l) = assocGet k' l := by
  have hkk : ¬(k = k') := fun hk => h hk.symm
  induction l with
  | nil =>
    show (if k = k' then some v else assocGet k' ([] : List (κ × β))) = assocGet k' []
    rw [if_neg hkk]
  | cons p t ih =>
    obtain ⟨k0, v0⟩ := p
    by_cases hk0 : k0 = k
    · subst hk0
      have h1 : assocSet k0 v ((k0, v0) :: t) = (k0, v) :: t := by
        unfold assocSet
        rw [if_pos rfl]
      rw [h1]
      show (if k0 = k' then some v else assocGet k' t) =
        (if k0 = k' then some v0 else assocGet k' t)
      rw [if_neg hkk, if_neg hkk]
    · have h1 : assocSet k v ((k0, v0) :: t) = (k0, v0) :: assocSet k v t := by
        simp only [assocSet]
        rw [if_neg hk0]
      rw [h1]
      show (if k0 = k' then some v0 else assocGet k' (assocSet k v t)) =
        (if k0 = k' then some v0 else assocGet k' t)
      by_cases hk0' : k0 = k'
      · rw [if_pos hk0', if_pos hk0']
      · rw [if_neg hk0', if_neg hk0', ih]

/-- The write-back loop touches only the address column and only
targeted rows. -/
theorem enrichLoop_frame (g : ℚ × ℚ → ReverseOutcome)
    (fgOpt : Option (String → ForwardOutcome)) (flags : EnrichFlags)
    (prompt : PromptOracle) (addrC latn lonn : String) (ready : Bool) :
    ∀ (l : List (Row × Bool)) (cache : List ((ℚ × ℚ) × String)),
      List.Forall₂ (fun row' (p : Row × Bool) =>
        (p.2 = false → row' = p.1) ∧
        ∀ col, col ≠ addrC → rowGet row' col = rowGet p.1 col)
      (enrichLoop g fgOpt flags prompt addrC latn lonn ready l cache).1 l := by
  intro l
  induction l with
  | nil =>
    intro cache
    exact List.Forall₂.nil
  | cons p t ih =>
    intro cache
    obtain ⟨row, tgt⟩ := p
    cases tgt with
    | false =>
      have h1 : (enrichLoop g fgOpt flags prompt addrC latn lonn ready
          ((row, false) :: t) cache).1 =
          row :: (enrichLoop g fgOpt flags prompt addrC latn lonn ready t cache).1 := rfl
      rw [h1]
      exact List.Forall₂.cons ⟨(fun _ => rfl), (fun _ _ => rfl)⟩ (ih cache)
    | true =>
      have h1 : (enrichLoop g fgOpt flags prompt addrC latn lonn ready
          ((row, true) :: t) cache).1 =
          rowSet row addrC (.s (enrichRow row cache g fgOpt flags prompt
            addrC latn lonn ready).1) ::
          (enrichLoop g fgOpt flags prompt addrC latn lonn ready t
            (enrichRow row cache g fgOpt flags prompt addrC latn lonn
              ready).2.2.2.1).1 := rfl
      rw [h1]
      refine List.Forall₂.cons ⟨(fun h => nomatch h), (fun col hcol => ?_)⟩ (ih _)
      exact assocGet_assocSet_ne _ row hcol

/-- With no targeted row, no zipped pair survives the target filter. -/
theorem zip_filter_no_target {α : Type} (rows : List α) (targets : List Bool)
    (h : targets.count true = 0) :
    (rows.zip targets).filter (fun p => p.2) = [] := by
  induction rows generalizing targets with
  | nil => rfl
  | cons r rs ih =>
    cases targets with
    | nil => rfl
    | cons b bs =>
      cases b with
      | true => simp [List.count_cons] at h
      | false =>
        rw [List.count_cons] at h
        simp only [List.zip_cons_cons, List.filter_cons]
        rw [if_neg (by simp)]
        exact ih bs (by omega)

/-- The identity relation instance of the loop frame, for the untouched
early-return dataframe. -/
theorem forall₂_zip_self {β : Type} (rel : Row → Row × β → Prop)
    (hrel : ∀ r b, rel r (r, b)) :
    ∀ (rows : List Row) (targets : List β), rows.length = targets.length →
      List.Forall₂ rel rows (rows.zip targets) := by
  intro rows
  induction rows with
  | nil => intro targets _; exact List.Forall₂.nil
  | cons r rs ih =>
    intro targets hlen
    cases targets with
    | nil => exact absurd hlen (by simp)
    | cons b bs =>
      rw [List.zip_cons_cons]
      exact List.Forall₂.cons (hrel r b) (ih bs (by simpa using hlen))

/-- C9 (amended): when the lat/lon columns are already present in the
input, the batch driver mutates only the address column's values and
only in targeted rows — every other column's value and every
non-targeted row is unchanged, and the column list and row count are
preserved — and it returns two integers: the count of targeted rows,
and the count of targeted rows whose final address classifies as
complete.  (When the lat/lon columns are absent the driver first
*appends* them, derived from geometry, so the dataset's shape does
change in that case — see the counterexample.) -/
theorem claim_C9_amended (df : Df) (g : ℚ × ℚ → ReverseOutcome)
    (cache : List ((ℚ × ℚ) × String)) (fgOpt : Option (String → ForwardOutcome))
    (addrC latn lonn mp : String) (flags : EnrichFlags) (prompt : PromptOracle)
    (df' : Df) (t k : Nat) (cache' : List ((ℚ × ℚ) × String))
    (hlat : latn ∈ df.cols) (hlon : lonn ∈ df.cols)
    (hrun : process_dataframe df g cache fgOpt addrC latn lonn mp flags prompt =
      .ok (df', t, k, cache')) :
    df'.cols = df.cols ∧
    df'.rows.length = df.rows.length ∧
    List.Forall₂ (fun row' (p : Row × Bool) =>
        (p.2 = false → row' = p.1) ∧
        ∀ col, col ≠ addrC → rowGet row' col = rowGet p.1 col)
      df'.rows
      (df.rows.zip (df.rows.map (fun row =>
        rowTargeted row addrC mp flags.only_missing flags.only_incomplete))) ∧
    t = (df.rows.map (fun row =>
        rowTargeted row addrC mp flags.only_missing flags.only_incomplete)).count true ∧
    k = ((df'.rows.zip (df.rows.map (fun row =>
        rowTargeted row addrC mp flags.only_missing flags.only_incomplete))).filter
          (fun p => p.2)).countP
        (fun p => addressIsComplete (rowAddrStr p.1 addrC)) := by
  simp only [process_dataframe] at hrun
  have haddr : ¬(addrC ∉ df.cols) := by
    intro hna
    rw [if_pos hna] at hrun
    exact nomatch hrun
  rw [if_neg haddr] at hrun
  set targets := df.rows.map (fun row =>
    rowTargeted row addrC mp flags.only_missing flags.only_incomplete) with htargets
  have hlen : df.rows.length = targets.length := by
    rw [htargets, List.length_map]
  by_cases htc : targets.count true = 0
  · rw [if_pos htc] at hrun
    injection hrun with hok
    have h1 : df = df' := congrArg Prod.fst hok
    have h2 : 0 = t := congrArg (fun p => p.2.1) hok
    have h3 : 0 = k := congrArg (fun p => p.2.2.1) hok
    subst h1
    subst h2
    subst h3
    refine ⟨rfl, rfl, ?_, htc.symm, ?_⟩
    · exact forall₂_zip_self _ (fun r b => ⟨(fun _ => rfl), (fun _ _ => rfl)⟩)
        df.rows targets hlen
    · rw [zip_filter_no_target _ _ htc]
      rfl
  · rw [if_neg htc, if_pos ⟨hlat, hlon⟩] at hrun
    replace hrun :
        (Except.ok
          (⟨df.cols, (enrichLoop g fgOpt flags prompt addrC latn lonn true
              (df.rows.zip targets) cache).1⟩,
           targets.count true,
           (((enrichLoop g fgOpt flags prompt addrC latn lonn true
                (df.rows.zip targets) cache).1.zip targets).filter
              (fun p => p.2)).countP
             (fun p => addressIsComplete (rowAddrStr p.1 addrC)),
           (enrichLoop g fgOpt flags prompt addrC latn lonn true
              (df.rows.zip targets) cache).2) :
          Except PyErr (Df × Nat × Nat × List ((ℚ × ℚ) × String))) =
          Except.ok (df', t, k, cache') := hrun
    injection hrun with hok
    have hdf : df' = ⟨df.cols, (enrichLoop g fgOpt flags prompt addrC latn lonn true
        (df.rows.zip targets) cache).1⟩ := (congrArg Prod.fst hok).symm
    have ht : t = targets.count true := (congrArg (fun p => p.2.1) hok).symm
    have hk : k = (((enrichLoop g fgOpt flags prompt addrC latn lonn true
        (df.rows.zip targets) cache).1.zip targets).filter (fun p => p.2)).countP
        (fun p => addressIsComplete (rowAddrStr p.1 addrC)) :=
      (congrArg (fun p => p.2.2.1) hok).symm
    have hfa := enrichLoop_frame g fgOpt flags prompt addrC latn lonn true
      (df.rows.zip targets) cache
    have hrows : df'.rows = (enrichLoop g fgOpt flags prompt addrC latn lonn true
        (df.rows.zip targets) cache).1 := by rw [hdf]
    refine ⟨by rw [hdf], ?_, ?_, ht, ?_⟩
    · rw [hrows, hfa.length_eq, List.length_zip, htargets, List.length_map,
        Nat.min_self]
    · rw [hrows]
      exact hfa
    · rw [hk, hrows]

/-- C9 witness: a two-row frame run (one targeted row, one complete row
left alone) with lat/lon columns present. -/
theorem claim_C9_witness :
    process_dataframe
        ⟨["address", "lat", "lon", "name"],
         [[("address", Cell.s "No address tags"), ("lat", Cell.num 34),
           ("lon", Cell.num (-118)), ("name", Cell.s "Station 1")],
          [("address", Cell.s "123 Main St, Springfield, CA 90210"),
           ("lat", Cell.num 35), ("lon", Cell.num (-117)),
           ("name", Cell.s "Station 2")]]⟩
        (fun _ => .noLocation) [] none "address" "lat" "lon" "No address tags"
        ⟨false, false, false, true, false⟩ (fun existing _ _ _ => existing) =
      .ok (⟨["address", "lat", "lon", "name"],
        [[("address", Cell.s "No address found via reverse geocoding"),
          ("lat", Cell.num 34), ("lon", Cell.num (-118)),
          ("name", Cell.s "Station 1")],
         [("address", Cell.s "123 Main St, Springfield, CA 90210"),
          ("lat", Cell.num 35), ("lon", Cell.num (-117)),
          ("name", Cell.s "Station 2")]]⟩,
       1, 0, [((34, -118), "No address found via reverse geocoding")]) ∧
    (⟨["address", "lat", "lon", "name"],
      [[("address", Cell.s "No address found via reverse geocoding"),
        ("lat", Cell.num 34), ("lon", Cell.num (-118)),
        ("name", Cell.s "Station 1")],
       [("address", Cell.s "123 Main St, Springfield, CA 90210"),
        ("lat", Cell.num 35), ("lon", Cell.num (-117)),
        ("name", Cell.s "Station 2")]]⟩ : Df).cols =
      ["address", "lat", "lon", "name"] := by
  have h := claim_C9_amended
    ⟨["address", "lat", "lon", "name"],
     [[("address", Cell.s "No address tags"), ("lat", Cell.num 34),
       ("lon", Cell.num (-118)), ("name", Cell.s "Station 1")],
      [("address", Cell.s "123 Main St, Springfield, CA 90210"),
       ("lat", Cell.num 35), ("lon", Cell.num (-117)),
       ("name", Cell.s "Station 2")]]⟩
    (fun _ => .noLocation) [] none "address" "lat" "lon" "No address tags"
    ⟨false, false, false, true, false⟩ (fun existing _ _ _ => existing)
    ⟨["address", "lat", "lon", "name"],
     [[("address", Cell.s "No address found via reverse geocoding"),
       ("lat", Cell.num 34), ("lon", Cell.num (-118)),
       ("name", Cell.s "Station 1")],
      [("address", Cell.s "123 Main St, Springfield, CA 90210"),
       ("lat", Cell.num 35), ("lon", Cell.num (-117)),
       ("name", Cell.s "Station 2")]]⟩
    1 0 [((34, -118), "No address found via reverse geocoding")]
    (by decide) (by decide) (by rfl)
  exact ⟨by rfl, h.1⟩

/-- C9 counterexample: the claim asserts the driver never changes the
dataset's shape.  On an input without lat/lon columns (deriving them
from geometry), processing *appends* two columns — the output column
list differs from the input's. -/
theorem claim_C9_counterexample :
    process_dataframe
        ⟨["address", "geometry"],
         [[("address", Cell.s "No address tags"), ("geometry", Cell.pt 1 2)]]⟩
        (fun _ => .noLocation) [] none "address" "lat" "lon" "No address tags"
        ⟨false, false, false, true, false⟩ (fun existing _ _ _ => existing) =
      .ok (⟨["address", "geometry", "lat", "lon"],
        [[("address", Cell.s "No address found via reverse geocoding"),
          ("geometry", Cell.pt 1 2), ("lat", Cell.num 2), ("lon", Cell.num 1)]]⟩,
       1, 0, [((2, 1), "No address found via reverse geocoding")]) ∧
    (["address", "geometry", "lat", "lon"] : List String) ≠
      ["address", "geometry"] := by
  constructor
  · rfl
  · decide

/-- C1 witness: a targeted row with fresh coordinates and a no-results
provider, resolved non-interactively. -/
theorem claim_C1_amended_witness :
    rowGet [("address", Cell.s "No address tags"), ("lat", Cell.num 34),
        ("lon", Cell.num (-118))] "lat" = some (Cell.num 34) ∧
    (enrichRow [("address", Cell.s "No address tags"), ("lat", Cell.num 34),
        ("lon", Cell.num (-118))] [] (fun _ => .noLocation) none
      ⟨false, false, false, true, false⟩ (fun existing _ _ _ => existing)
      "address" "lat" "lon" true).1 =
      "No address found via reverse geocoding" := by
  refine ⟨by decide, ?_⟩
  exact (claim_C1_amended
    [("address", Cell.s "No address tags"), ("lat", Cell.num 34),
     ("lon", Cell.num (-118))] [] (fun _ => .noLocation) none
    ⟨false, false, false, true, false⟩ (fun existing _ _ _ => existing)
    "address" "lat" "lon" true rfl).2.2 34 (-118) rfl (by decide) (by decide)
    rfl rfl rfl

/-- C1 counterexample: the claim asserts that a (non-interactively
processed) row whose provider call returns no location keeps its
original placeholder address.  Running the driver on such a row
overwrites the address with the error-message string
`"No address found via reverse geocoding"` — `suggestion or existing`
picks the truthy error string, not the original `"No address tags"`. -/
theorem claim_C1_counterexample :
    process_dataframe
        ⟨["address", "lat", "lon"],
         [[("address", Cell.s "No address tags"), ("lat", Cell.num 34),
           ("lon", Cell.num (-118))]]⟩
        (fun _ => .noLocation) [] none "address" "lat" "lon" "No address tags"
        ⟨false, false, false, true, false⟩ (fun existing _ _ _ => existing) =
      .ok (⟨["address", "lat", "lon"],
        [[("address", Cell.s "No address found via reverse geocoding"),
          ("lat", Cell.num 34), ("lon", Cell.num (-118))]]⟩,
       1, 0, [((34, -118), "No address found via reverse geocoding")]) ∧
    ("No address found via reverse geocoding" : String) ≠ "No address tags" := by
  constructor
  · rfl
  · decide
